import Mathlib

/-!
# Encoder abstraction layer: factory and OpenH264 adapter

A shallow embedding of `video_codec/VideoCodecApi.cpp` and
`video_codec/VideoEncoderOpenH264.cpp`.

* `uint32_t` values are natural numbers; arithmetic that can wrap is reduced
  modulo `2^32` where the source computes it.
* Pointers are natural numbers, `0` being `nullptr`.
* Calls that leave the program (`dlopen`, `dlsym`, the entry points of the
  wrapped library, the methods of the native encoder object) are answered by an
  oracle `Env`; every such call is appended to a trace, so that "no native call
  is issued" is a statement about the trace.
* Calling through a null pointer has no defined behaviour: the operations
  return `none` there.
* Log output is not modelled.
-/

namespace VideoCodec

/-! ## Declarations of VideoCodecApi.h -/

/-- Result codes of the public interface. The header declaring the enumeration
is not among the sources; the constructors are the names the sources use. -/
inductive EncoderRetCode
  | VIDEO_ENCODER_SUCCESS
  | VIDEO_ENCODER_CREATE_FAIL
  | VIDEO_ENCODER_INIT_FAIL
  | VIDEO_ENCODER_START_FAIL
  | VIDEO_ENCODER_ENCODE_FAIL
  | VIDEO_ENCODER_STOP_FAIL
  | VIDEO_ENCODER_DESTROY_FAIL
  | VIDEO_ENCODER_RESET_FAIL
  | VIDEO_ENCODER_FORCE_KEY_FRAME_FAIL
  | VIDEO_ENCODER_SET_ENCODE_PARAMS_FAIL
  deriving DecidableEq, Repr

open EncoderRetCode

/-- Numeric constants declared in VideoCodecApi.h, which is not among the
sources: the three profile codes and the five encoder type codes. Their values
are parameters of the embedding. -/
structure ApiConsts where
  ENCODE_PROFILE_BASELINE : Nat
  ENCODE_PROFILE_MAIN : Nat
  ENCODE_PROFILE_HIGH : Nat
  ENCODER_TYPE_OPENH264 : Nat
  ENCODER_TYPE_NETINTH264 : Nat
  ENCODER_TYPE_NETINTH265 : Nat
  ENCODER_TYPE_VPEH264 : Nat
  ENCODER_TYPE_VPEH265 : Nat
  deriving DecidableEq, Repr

/-- Modelled from the spec: the `EncodeParams` structure of VideoCodecApi.h,
"{width, height, frameRate, bitrateBps, gopSize, profile}", all unsigned
integers; the field names are the ones the sources read. -/
structure EncodeParams where
  width : Nat
  height : Nat
  frameRate : Nat
  bitrate : Nat
  gopSize : Nat
  profile : Nat
  deriving DecidableEq, Repr

/-- Modelled from the spec: `EncodeParams::operator==` of VideoCodecApi.h,
"Equality is structural (all fields equal)". -/
def EncodeParams.eq (a b : EncodeParams) : Bool :=
  a.width == b.width && a.height == b.height && a.frameRate == b.frameRate &&
  a.bitrate == b.bitrate && a.gopSize == b.gopSize && a.profile == b.profile

/-- Value-initialised parameters, `EncodeParams m_encParams = {}`. -/
def EncodeParams.zero : EncodeParams :=
  { width := 0, height := 0, frameRate := 0, bitrate := 0, gopSize := 0, profile := 0 }

/-! ## Constants of VideoEncoderOpenH264.cpp -/

def WH_MIN : Nat := 16
def WH_MAX : Nat := 4096
def FRAMERATE_MIN : Nat := 30
def FRAMERATE_MAX : Nat := 60
def BITRATE_MIN : Nat := 1000000
def BITRATE_MAX : Nat := 10000000
def GOPSIZE_MIN : Nat := 30
def GOPSIZE_MAX : Nat := 3000
def COMPRESS_RATIO : Nat := 2
def PRIMARY_COLOURS : Nat := 3

/-- Modulus of `uint32_t` arithmetic. -/
def U32 : Nat := 4294967296

/-- Conversion of an unsigned 32-bit value to `int`. -/
def toInt32 (n : Nat) : Int :=
  if n % U32 < 2147483648 then ((n % U32 : Nat) : Int) else ((n % U32 : Nat) : Int) - 4294967296

/-- Conversion of an `int` to `uint32_t`. -/
def toUInt32 (i : Int) : Nat := (i % 4294967296).toNat

/-! ## Parameter validation -/

/-- `VideoEncoderOpenH264::VerifyEncodeParams`. -/
def VerifyEncodeParams (K : ApiConsts) (encParams : EncodeParams) : Bool :=
  if encParams.width > WH_MAX || encParams.height > WH_MAX ||
      encParams.width < WH_MIN || encParams.height < WH_MIN then
    false
  else if encParams.frameRate != FRAMERATE_MIN && encParams.frameRate != FRAMERATE_MAX then
    false
  else if encParams.bitrate < BITRATE_MIN || encParams.bitrate > BITRATE_MAX then
    false
  else if encParams.gopSize < GOPSIZE_MIN || encParams.gopSize > GOPSIZE_MAX then
    false
  else if encParams.profile != K.ENCODE_PROFILE_BASELINE &&
      encParams.profile != K.ENCODE_PROFILE_MAIN &&
      encParams.profile != K.ENCODE_PROFILE_HIGH then
    false
  else
    true

/-! ## Types of the wrapped library (codec_api.h, not part of this repository)

Only the members the adapter reads or writes are named. `float` members hold
the unsigned value converted to them (30 or 60 on every path, validation
comes first). The enumerators are the wrapped library's values. -/

def CAMERA_VIDEO_REAL_TIME : Nat := 0
def RC_BITRATE_MODE : Nat := 1
def CONSTANT_ID : Nat := 0
def HIGH_COMPLEXITY : Nat := 2
def SM_SINGLE_SLICE : Nat := 0
def PRO_BASELINE : Nat := 66
def PRO_MAIN : Nat := 77
def PRO_HIGH : Nat := 100
def LEVEL_3_2 : Nat := 32
def videoFormatI420 : Nat := 23
def ENCODER_OPTION_DATAFORMAT : Nat := 0

/-- First entry of `SEncParamExt::sSpatialLayers`. -/
structure SSpatialLayerConfig where
  iVideoWidth : Int
  iVideoHeight : Int
  fFrameRate : Nat
  iSpatialBitrate : Int
  uiProfileIdc : Nat
  uiLevelIdc : Nat
  uiSliceMode : Nat
  deriving DecidableEq, Repr

/-- The members of `SEncParamExt` the adapter writes; `others` stands for all
the members it never touches. -/
structure SEncParamExt where
  iUsageType : Nat
  iPicWidth : Int
  iPicHeight : Int
  iTargetBitrate : Int
  iRCMode : Nat
  fMaxFrameRate : Nat
  iTemporalLayerNum : Int
  iSpatialLayerNum : Int
  sSpatialLayers0 : SSpatialLayerConfig
  iComplexityMode : Nat
  uiIntraPeriod : Nat
  iNumRefFrame : Int
  eSpsPpsIdStrategy : Nat
  bPrefixNalAddingCtrl : Bool
  bSimulcastAVC : Bool
  iPaddingFlag : Int
  iEntropyCodingModeFlag : Int
  bEnableFrameSkip : Bool
  iMaxBitrate : Int
  uiMaxNalSize : Nat
  bEnableLongTermReference : Bool
  iLTRRefNum : Int
  iLtrMarkPeriod : Nat
  iMultipleThreadIdc : Nat
  iLoopFilterDisableIdc : Int
  bEnableDenoise : Bool
  bEnableBackgroundDetection : Bool
  bEnableAdaptiveQuant : Bool
  bEnableSceneChangeDetect : Bool
  bIsLosslessLink : Bool
  others : Nat
  deriving DecidableEq, Repr

/-- The members of `SSourcePicture` the adapter writes (planes 0 to 2). -/
structure SSourcePicture where
  iColorFormat : Nat
  iStride0 : Int
  iStride1 : Int
  iStride2 : Int
  pData0 : Nat
  pData1 : Nat
  pData2 : Nat
  iPicWidth : Int
  iPicHeight : Int
  deriving DecidableEq, Repr

/-- The members of `SFrameBSInfo` the adapter reads: `sLayerInfo->pBsBuf`
and `iFrameSizeInBytes`. -/
structure SFrameBSInfo where
  pBsBuf : Nat
  iFrameSizeInBytes : Int
  deriving DecidableEq, Repr

/-- Result of `memset(&m_paramExt, 0, sizeof(SEncParamExt))`. -/
def SEncParamExt.zero : SEncParamExt :=
  { iUsageType := 0, iPicWidth := 0, iPicHeight := 0, iTargetBitrate := 0, iRCMode := 0,
    fMaxFrameRate := 0, iTemporalLayerNum := 0, iSpatialLayerNum := 0,
    sSpatialLayers0 :=
      { iVideoWidth := 0, iVideoHeight := 0, fFrameRate := 0, iSpatialBitrate := 0,
        uiProfileIdc := 0, uiLevelIdc := 0, uiSliceMode := 0 },
    iComplexityMode := 0, uiIntraPeriod := 0, iNumRefFrame := 0, eSpsPpsIdStrategy := 0,
    bPrefixNalAddingCtrl := false, bSimulcastAVC := false, iPaddingFlag := 0,
    iEntropyCodingModeFlag := 0, bEnableFrameSkip := false, iMaxBitrate := 0,
    uiMaxNalSize := 0, bEnableLongTermReference := false, iLTRRefNum := 0,
    iLtrMarkPeriod := 0, iMultipleThreadIdc := 0, iLoopFilterDisableIdc := 0,
    bEnableDenoise := false, bEnableBackgroundDetection := false,
    bEnableAdaptiveQuant := false, bEnableSceneChangeDetect := false,
    bIsLosslessLink := false, others := 0 }

/-- Result of `memset(&m_srcPic, 0, sizeof(SSourcePicture))`. -/
def SSourcePicture.zero : SSourcePicture :=
  { iColorFormat := 0, iStride0 := 0, iStride1 := 0, iStride2 := 0,
    pData0 := 0, pData1 := 0, pData2 := 0, iPicWidth := 0, iPicHeight := 0 }

/-- Result of `memset(&m_frameBSInfo, 0, sizeof(SFrameBSInfo))`. -/
def SFrameBSInfo.zero : SFrameBSInfo :=
  { pBsBuf := 0, iFrameSizeInBytes := 0 }

/-! ## The outside world -/

/-- The two symbols resolved from the shared library. -/
inductive Symbol
  | WELS_CREATE_SVC_ENCODER
  | WELS_DESTROY_SVC_ENCODER
  deriving DecidableEq, Repr

/-- One call that leaves the program, with the arguments it is given. -/
inductive NativeCall
  | dlopen
  | dlsym (handle : Nat) (symbol : Symbol)
  | WelsCreateSVCEncoder (fn : Nat)
  | WelsDestroySVCEncoder (fn : Nat) (encoder : Nat)
  | GetDefaultParams (encoder : Nat)
  | InitializeExt (encoder : Nat) (param : SEncParamExt)
  | SetOption (encoder : Nat) (option : Nat) (value : Nat)
  | EncodeFrame (encoder : Nat) (pic : SSourcePicture)
  | Uninitialize (encoder : Nat)
  | ForceIntraFrame (encoder : Nat) (idr : Bool)
  deriving DecidableEq, Repr

/-- Answers of the outside world. Every function is indexed by the number of
calls issued before the one being answered, so two calls of the same function
may be answered differently. A pair is (return code, value left in the output
argument). -/
structure Env where
  dlopen : Nat → Nat
  dlsym : Nat → Nat
  WelsCreateSVCEncoder : Nat → Int × Nat
  GetDefaultParams : Nat → Int × SEncParamExt
  InitializeExt : Nat → Int
  SetOption : Nat → Int
  EncodeFrame : Nat → Int × SFrameBSInfo
  ForceIntraFrame : Nat → Int

/-! ## Program state -/

/-- Data members of `class VideoEncoderOpenH264`. -/
structure VideoEncoderOpenH264 where
  m_encParams : EncodeParams
  m_resetFlag : Bool
  m_encoder : Nat
  m_paramExt : SEncParamExt
  m_srcPic : SSourcePicture
  m_frameBSInfo : SFrameBSInfo
  m_yLength : Nat
  m_frameSize : Nat
  deriving DecidableEq, Repr

/-- File-scope variables of VideoEncoderOpenH264.cpp. -/
structure Globals where
  g_welsCreateSVCEncoder : Nat
  g_welsDestroySVCEncoder : Nat
  g_openH264Loaded : Bool
  g_libHandle : Nat
  deriving DecidableEq, Repr

/-- One adapter object, the file-scope variables, and the calls issued so far. -/
structure Sys where
  obj : VideoEncoderOpenH264
  g : Globals
  trace : List NativeCall
  deriving DecidableEq, Repr

/-- The object right after its constructor ran (default member initialisers). -/
def VideoEncoderOpenH264.new : VideoEncoderOpenH264 :=
  { m_encParams := EncodeParams.zero, m_resetFlag := false, m_encoder := 0,
    m_paramExt := SEncParamExt.zero, m_srcPic := SSourcePicture.zero,
    m_frameBSInfo := SFrameBSInfo.zero, m_yLength := 0, m_frameSize := 0 }

/-- File-scope variables at program start. -/
def Globals.initial : Globals :=
  { g_welsCreateSVCEncoder := 0, g_welsDestroySVCEncoder := 0,
    g_openH264Loaded := false, g_libHandle := 0 }

/-- A fresh process holding one freshly constructed adapter. -/
def Sys.initial : Sys :=
  { obj := VideoEncoderOpenH264.new, g := Globals.initial, trace := [] }

/-- Caller variables behind the output arguments of `EncodeOneFrame`. -/
structure OutParams where
  outputData : Nat
  outputSize : Nat
  deriving DecidableEq, Repr

/-! ## Dynamic binding -/

/-- Append one call to the trace. -/
def Sys.call (s : Sys) (c : NativeCall) : Sys :=
  { s with trace := s.trace ++ [c] }

/-- `VideoEncoderOpenH264::LoadOpenH264SharedLib`. -/
def LoadOpenH264SharedLib (env : Env) (s : Sys) : Bool × Sys :=
  if s.g.g_openH264Loaded then
    (true, s)
  else
    let h := env.dlopen s.trace.length
    let s1 := { s.call NativeCall.dlopen with g := { s.g with g_libHandle := h } }
    if h == 0 then
      (false, s1)
    else
      let c := env.dlsym s1.trace.length
      let s2 := { s1.call (NativeCall.dlsym h Symbol.WELS_CREATE_SVC_ENCODER) with
                  g := { s1.g with g_welsCreateSVCEncoder := c } }
      if c == 0 then
        (false, s2)
      else
        let d := env.dlsym s2.trace.length
        let s3 := { s2.call (NativeCall.dlsym h Symbol.WELS_DESTROY_SVC_ENCODER) with
                    g := { s2.g with g_welsDestroySVCEncoder := d } }
        if d == 0 then
          (false, { s3 with g := { s3.g with g_welsCreateSVCEncoder := 0 } })
        else
          (true, { s3 with g := { s3.g with g_openH264Loaded := true } })

/-! ## Initialisation -/

/-- `VideoEncoderOpenH264::InitParamExt`. -/
def InitParamExt (p : SEncParamExt) : SEncParamExt :=
  { p with
    iUsageType := CAMERA_VIDEO_REAL_TIME
    iRCMode := RC_BITRATE_MODE
    iPaddingFlag := 0
    iTemporalLayerNum := 1
    iSpatialLayerNum := 1
    eSpsPpsIdStrategy := CONSTANT_ID
    bPrefixNalAddingCtrl := false
    bSimulcastAVC := false
    bEnableDenoise := false
    bEnableBackgroundDetection := true
    bEnableSceneChangeDetect := true
    bEnableAdaptiveQuant := false
    bEnableFrameSkip := false
    bEnableLongTermReference := false
    iLtrMarkPeriod := 30
    bIsLosslessLink := false
    iComplexityMode := HIGH_COMPLEXITY
    iNumRefFrame := 1
    iEntropyCodingModeFlag := 1
    uiMaxNalSize := 0
    iLTRRefNum := 0
    iMultipleThreadIdc := 1
    iLoopFilterDisableIdc := 0 }

/-- The profile mapping at the end of `InitParams`. -/
def profileIdc (K : ApiConsts) (profile : Nat) : Nat :=
  if profile == K.ENCODE_PROFILE_HIGH then PRO_HIGH
  else if profile == K.ENCODE_PROFILE_MAIN then PRO_MAIN
  else PRO_BASELINE

/-- The assignments `InitParams` makes to `m_paramExt` between
`GetDefaultParams` and `InitializeExt`. -/
def configureParamExt (K : ApiConsts) (e : EncodeParams) (d : SEncParamExt) : SEncParamExt :=
  let p0 := InitParamExt { d with iPicWidth := toInt32 e.width, iPicHeight := toInt32 e.height }
  let p1 := { p0 with
    iTargetBitrate := toInt32 e.bitrate
    iMaxBitrate := toInt32 e.bitrate
    fMaxFrameRate := e.frameRate
    uiIntraPeriod := e.gopSize }
  { p1 with
    sSpatialLayers0 :=
      { p1.sSpatialLayers0 with
        iVideoWidth := toInt32 e.width
        iVideoHeight := toInt32 e.height
        fFrameRate := e.frameRate
        iSpatialBitrate := p1.iTargetBitrate
        uiSliceMode := SM_SINGLE_SLICE
        uiProfileIdc := profileIdc K e.profile
        uiLevelIdc := LEVEL_3_2 } }

/-- `VideoEncoderOpenH264::InitParams`; `none` when `m_encoder` is null. -/
def InitParams (K : ApiConsts) (env : Env) (s : Sys) : Option (Bool × Sys) :=
  if s.obj.m_encoder == 0 then
    none
  else
    let r := env.GetDefaultParams s.trace.length
    let s1 := { s.call (NativeCall.GetDefaultParams s.obj.m_encoder) with
                obj := { s.obj with m_paramExt := r.2 } }
    if r.1 != 0 then
      some (false, s1)
    else
      let s2 := { s1 with
        obj := { s1.obj with
          m_paramExt := configureParamExt K s1.obj.m_encParams s1.obj.m_paramExt
          m_yLength := (s1.obj.m_encParams.width * s1.obj.m_encParams.height) % U32 } }
      let rc := env.InitializeExt s2.trace.length
      let s3 := s2.call (NativeCall.InitializeExt s2.obj.m_encoder s2.obj.m_paramExt)
      if rc != 0 then
        some (false, s3)
      else
        let rc2 := env.SetOption s3.trace.length
        let s4 := s3.call
          (NativeCall.SetOption s3.obj.m_encoder ENCODER_OPTION_DATAFORMAT videoFormatI420)
        if rc2 != 0 then
          some (false, s4)
        else
          some (true, s4)

/-- `VideoEncoderOpenH264::InitEncoder`; `none` when the create entry point is
called through a null pointer or `InitParams` is undefined. -/
def InitEncoder (K : ApiConsts) (env : Env) (s : Sys) (encParams : EncodeParams) :
    Option (EncoderRetCode × Sys) :=
  if !VerifyEncodeParams K encParams then
    some (VIDEO_ENCODER_INIT_FAIL, s)
  else
    let s1 := { s with obj := { s.obj with m_encParams := encParams } }
    let l := LoadOpenH264SharedLib env s1
    if !l.1 then
      some (VIDEO_ENCODER_INIT_FAIL, l.2)
    else if l.2.g.g_welsCreateSVCEncoder == 0 then
      none
    else
      let r := env.WelsCreateSVCEncoder l.2.trace.length
      let s3 := { l.2.call (NativeCall.WelsCreateSVCEncoder l.2.g.g_welsCreateSVCEncoder) with
                  obj := { l.2.obj with m_encoder := r.2 } }
      if r.1 != 0 then
        some (VIDEO_ENCODER_INIT_FAIL, s3)
      else
        let s4 := { s3 with
          obj := { s3.obj with
            m_frameSize :=
              (((s3.obj.m_encParams.width * s3.obj.m_encParams.height) % U32)
                * PRIMARY_COLOURS % U32) / COMPRESS_RATIO
            m_paramExt := SEncParamExt.zero
            m_srcPic := SSourcePicture.zero
            m_frameBSInfo := SFrameBSInfo.zero } }
        match InitParams K env s4 with
        | none => none
        | some (false, s5) => some (VIDEO_ENCODER_INIT_FAIL, s5)
        | some (true, s5) => some (VIDEO_ENCODER_SUCCESS, s5)

/-- `VideoEncoderOpenH264::StartEncoder`. -/
def StartEncoder (s : Sys) : EncoderRetCode × Sys :=
  (VIDEO_ENCODER_SUCCESS, s)

/-- `VideoEncoderOpenH264::StopEncoder`. -/
def StopEncoder (s : Sys) : EncoderRetCode × Sys :=
  (VIDEO_ENCODER_SUCCESS, s)

/-! ## Release and reset -/

/-- `VideoEncoderOpenH264::Release`; `none` when the destroy entry point is
called through a null pointer. The result of `Uninitialize` is discarded. -/
def Release (s : Sys) : Option Sys :=
  if s.obj.m_encoder != 0 then
    let s1 := s.call (NativeCall.Uninitialize s.obj.m_encoder)
    if s1.g.g_welsDestroySVCEncoder == 0 then
      none
    else
      let s2 := s1.call
        (NativeCall.WelsDestroySVCEncoder s1.g.g_welsDestroySVCEncoder s1.obj.m_encoder)
      some { s2 with obj := { s2.obj with m_encoder := 0 } }
  else
    some s

/-- `VideoEncoderOpenH264::DestroyEncoder`. -/
def DestroyEncoder (s : Sys) : Option Sys :=
  Release s

/-- `VideoEncoderOpenH264::ResetEncoder`. -/
def ResetEncoder (K : ApiConsts) (env : Env) (s : Sys) : Option (EncoderRetCode × Sys) :=
  match DestroyEncoder s with
  | none => none
  | some s1 =>
    match InitEncoder K env s1 s1.obj.m_encParams with
    | none => none
    | some (ret, s2) =>
      if ret != VIDEO_ENCODER_SUCCESS then
        some (VIDEO_ENCODER_RESET_FAIL, s2)
      else
        let st := StartEncoder s2
        if st.1 != VIDEO_ENCODER_SUCCESS then
          some (VIDEO_ENCODER_RESET_FAIL, st.2)
        else
          some (VIDEO_ENCODER_SUCCESS, st.2)

/-! ## Encoding -/

/-- `VideoEncoderOpenH264::InitSrcPic`. The strides divide an `int` by the
unsigned constant, so the division is unsigned. -/
def InitSrcPic (o : VideoEncoderOpenH264) (inputData : Nat) : VideoEncoderOpenH264 :=
  let w := o.m_paramExt.iPicWidth
  let p1 := inputData + o.m_yLength
  { o with
    m_srcPic :=
      { o.m_srcPic with
        iPicWidth := w
        iPicHeight := o.m_paramExt.iPicHeight
        iColorFormat := videoFormatI420
        iStride0 := w
        iStride1 := toInt32 (toUInt32 w / COMPRESS_RATIO)
        iStride2 := toInt32 (toUInt32 w / COMPRESS_RATIO)
        pData0 := inputData
        pData1 := p1
        pData2 := p1 + (o.m_yLength >>> COMPRESS_RATIO) } }

/-- The part of `EncodeOneFrame` after the reset branch: `InitSrcPic`, the
native `EncodeFrame`, and the stores through the output pointers. `none` when
`m_encoder` is null at the native call. -/
def encodeFrameStep (env : Env) (s : Sys) (inputData : Nat) (out : OutParams) :
    Option (EncoderRetCode × Sys × OutParams) :=
  let s1 := { s with obj := InitSrcPic s.obj inputData }
  if s1.obj.m_encoder == 0 then
    none
  else
    let r := env.EncodeFrame s1.trace.length
    let s2 := { s1.call (NativeCall.EncodeFrame s1.obj.m_encoder s1.obj.m_srcPic) with
                obj := { s1.obj with m_frameBSInfo := r.2 } }
    if r.1 != 0 then
      some (VIDEO_ENCODER_ENCODE_FAIL, s2, out)
    else
      some (VIDEO_ENCODER_SUCCESS, s2,
        { outputData := s2.obj.m_frameBSInfo.pBsBuf
          outputSize := toUInt32 s2.obj.m_frameBSInfo.iFrameSizeInBytes })

/-- `VideoEncoderOpenH264::EncodeOneFrame`. `out` holds the caller variables
the two output pointers refer to; the result carries their values on return.
`none` when the reset or the native call goes through a null pointer. -/
def EncodeOneFrame (K : ApiConsts) (env : Env) (s : Sys) (inputData inputSize : Nat)
    (out : OutParams) : Option (EncoderRetCode × Sys × OutParams) :=
  if inputSize < s.obj.m_frameSize then
    some (VIDEO_ENCODER_ENCODE_FAIL, s, out)
  else if s.obj.m_resetFlag then
    match ResetEncoder K env s with
    | none => none
    | some (ret, s1) =>
      if ret != VIDEO_ENCODER_SUCCESS then
        some (VIDEO_ENCODER_ENCODE_FAIL, s1, out)
      else
        encodeFrameStep env { s1 with obj := { s1.obj with m_resetFlag := false } } inputData out
  else
    encodeFrameStep env s inputData out

/-- `VideoEncoderOpenH264::ForceKeyFrame`; `none` when `m_encoder` is null. -/
def ForceKeyFrame (env : Env) (s : Sys) : Option (EncoderRetCode × Sys) :=
  if s.obj.m_encoder == 0 then
    none
  else
    let ret := env.ForceIntraFrame s.trace.length
    let s1 := s.call (NativeCall.ForceIntraFrame s.obj.m_encoder true)
    if ret != 0 then
      some (VIDEO_ENCODER_FORCE_KEY_FRAME_FAIL, s1)
    else
      some (VIDEO_ENCODER_SUCCESS, s1)

/-- `VideoEncoderOpenH264::SetEncodeParams`. -/
def SetEncodeParams (K : ApiConsts) (s : Sys) (encParams : EncodeParams) :
    EncoderRetCode × Sys :=
  if encParams.eq s.obj.m_encParams then
    (VIDEO_ENCODER_SUCCESS, s)
  else if !VerifyEncodeParams K encParams then
    (VIDEO_ENCODER_SET_ENCODE_PARAMS_FAIL, s)
  else
    (VIDEO_ENCODER_SUCCESS,
      { s with obj := { s.obj with m_encParams := encParams, m_resetFlag := true } })

/-! ## Factory (VideoCodecApi.cpp) -/

/-- The object a `new` expression of `CreateVideoEncoder` constructs. -/
inductive EncoderKind
  | OpenH264
  | NetintH264
  | NetintH265
  | VpeH264
  | VpeHEVC
  deriving DecidableEq, Repr

/-- The class a `delete` expression of `DestroyVideoEncoder` casts the handle to. -/
inductive EncoderClass
  | VideoEncoderOpenH264
  | VideoEncoderNetint
  | VideoEncoderVpe
  deriving DecidableEq, Repr

/-- What `CreateVideoEncoder` leaves behind: the return code, the value of the
caller variable `*encoder`, and the kind of object it asked `new` for. -/
structure CreateResult where
  ret : EncoderRetCode
  encoder : Nat
  requested : Option EncoderKind
  deriving DecidableEq, Repr

/-- `CreateVideoEncoder`. `alloc` is what `new (std::nothrow)` returns (0 when
the allocation fails); `encoder` is the value of `*encoder` before the call. -/
def CreateVideoEncoder (K : ApiConsts) (alloc : Nat) (encType : Nat) (encoder : Nat) :
    CreateResult :=
  let finish (kind : EncoderKind) : CreateResult :=
    if alloc == 0 then
      { ret := VIDEO_ENCODER_CREATE_FAIL, encoder := alloc, requested := some kind }
    else
      { ret := VIDEO_ENCODER_SUCCESS, encoder := alloc, requested := some kind }
  if encType == K.ENCODER_TYPE_OPENH264 then finish EncoderKind.OpenH264
  else if encType == K.ENCODER_TYPE_NETINTH264 then finish EncoderKind.NetintH264
  else if encType == K.ENCODER_TYPE_NETINTH265 then finish EncoderKind.NetintH265
  else if encType == K.ENCODER_TYPE_VPEH264 then finish EncoderKind.VpeH264
  else if encType == K.ENCODER_TYPE_VPEH265 then finish EncoderKind.VpeHEVC
  else { ret := VIDEO_ENCODER_CREATE_FAIL, encoder := encoder, requested := none }

/-- `DestroyVideoEncoder`: the return code and the deletion performed, if any
(the class the handle was cast to, and the handle). -/
def DestroyVideoEncoder (K : ApiConsts) (encType : Nat) (encoder : Nat) :
    EncoderRetCode × Option (EncoderClass × Nat) :=
  if encoder == 0 then
    (VIDEO_ENCODER_SUCCESS, none)
  else if encType == K.ENCODER_TYPE_OPENH264 then
    (VIDEO_ENCODER_SUCCESS, some (EncoderClass.VideoEncoderOpenH264, encoder))
  else if encType == K.ENCODER_TYPE_NETINTH264 || encType == K.ENCODER_TYPE_NETINTH265 then
    (VIDEO_ENCODER_SUCCESS, some (EncoderClass.VideoEncoderNetint, encoder))
  else if encType == K.ENCODER_TYPE_VPEH264 || encType == K.ENCODER_TYPE_VPEH265 then
    (VIDEO_ENCODER_SUCCESS, some (EncoderClass.VideoEncoderVpe, encoder))
  else
    (VIDEO_ENCODER_DESTROY_FAIL, none)

/-! ## Sample values -/

/-- One assignment of the header constants. -/
def sampleApi : ApiConsts :=
  { ENCODE_PROFILE_BASELINE := 66, ENCODE_PROFILE_MAIN := 77, ENCODE_PROFILE_HIGH := 100,
    ENCODER_TYPE_OPENH264 := 0, ENCODER_TYPE_NETINTH264 := 1, ENCODER_TYPE_NETINTH265 := 2,
    ENCODER_TYPE_VPEH264 := 3, ENCODER_TYPE_VPEH265 := 4 }

/-- The parameters of the end-to-end example: 1280x720, 30 fps, 4 Mbit/s,
GOP 60, high profile. -/
def sampleParams : EncodeParams :=
  { width := 1280, height := 720, frameRate := 30, bitrate := 4000000, gopSize := 60,
    profile := 100 }

/-- An outside world in which every call succeeds. -/
def envOk : Env :=
  { dlopen := fun _ => 4096
    dlsym := fun n => 8192 + n
    WelsCreateSVCEncoder := fun n => (0, 65536 + n)
    GetDefaultParams := fun _ => (0, SEncParamExt.zero)
    InitializeExt := fun _ => 0
    SetOption := fun _ => 0
    EncodeFrame := fun _ => (0, { pBsBuf := 131072, iFrameSizeInBytes := 1500 })
    ForceIntraFrame := fun _ => 0 }

/-- An outside world in which the shared library cannot be loaded. -/
def envNoLib : Env :=
  { envOk with dlopen := fun _ => 0 }

/-- An outside world in which the encoder is created but `GetDefaultParams` fails. -/
def envNoDefaults : Env :=
  { envOk with GetDefaultParams := fun _ => (1, SEncParamExt.zero) }

/-- The state `InitEncoder` leaves, from a fresh process and with the
end-to-end parameters, in the outside world `env`. -/
def sampleAfterInit (env : Env) : Sys :=
  match InitEncoder sampleApi env Sys.initial sampleParams with
  | some r => r.2
  | none => Sys.initial

/-- The state after a successful `InitEncoder` with the end-to-end parameters. -/
def sampleInitialised : Sys :=
  sampleAfterInit envOk

/-- Every outside call succeeds: the library and both symbols are found, the
encoder is created (return code 0 and a non-null object), and every method of
the native encoder returns 0. -/
def Env.allSucceed (env : Env) : Prop :=
  ∀ n : Nat, env.dlopen n ≠ 0 ∧ env.dlsym n ≠ 0 ∧
    (env.WelsCreateSVCEncoder n).1 = 0 ∧ (env.WelsCreateSVCEncoder n).2 ≠ 0 ∧
    (env.GetDefaultParams n).1 = 0 ∧ env.InitializeExt n = 0 ∧ env.SetOption n = 0 ∧
    (env.EncodeFrame n).1 = 0 ∧ env.ForceIntraFrame n = 0

/-- The file-scope variables are coherent: when the loaded flag is set, the
library handle and both entry points are non-null. -/
def Globals.bound (g : Globals) : Prop :=
  g.g_openH264Loaded = true →
    g.g_libHandle ≠ 0 ∧ g.g_welsCreateSVCEncoder ≠ 0 ∧ g.g_welsDestroySVCEncoder ≠ 0

/-- An outside world in which the encoder can be created during the first
seven calls only: a later `WelsCreateSVCEncoder` fails and leaves null. -/
def envCreateOnce : Env :=
  { envOk with WelsCreateSVCEncoder := fun n => if n < 7 then (0, 65536 + n) else (1, 0) }

/-- The initialised sample encoder after `SetEncodeParams` raised its bitrate
to 6 Mbit/s: the pending-reset flag is set. -/
def sampleArmed : Sys :=
  (SetEncodeParams sampleApi sampleInitialised { sampleParams with bitrate := 6000000 }).2

/-! ## Destructor, operation sequences -/

/-- `VideoEncoderOpenH264::~VideoEncoderOpenH264`. -/
def destructor (s : Sys) : Option Sys :=
  Release s

/-- `n` consecutive calls of `LoadOpenH264SharedLib`. -/
def loadRepeat (env : Env) : Nat → Sys → Sys
  | 0, s => s
  | n + 1, s => loadRepeat env n (LoadOpenH264SharedLib env s).2

/-- One call of a public member function of the adapter, with its arguments. -/
inductive Op
  | InitEncoder (encParams : EncodeParams)
  | StartEncoder
  | EncodeOneFrame (inputData inputSize : Nat) (out : OutParams)
  | StopEncoder
  | DestroyEncoder
  | ResetEncoder
  | ForceKeyFrame
  | SetEncodeParams (encParams : EncodeParams)
  deriving DecidableEq, Repr

/-- The effect of one public call: the return code (none for the `void`
`DestroyEncoder`) and the next state; `none` when the call is undefined. -/
def step (K : ApiConsts) (env : Env) (s : Sys) : Op → Option (Option EncoderRetCode × Sys)
  | Op.InitEncoder p => (InitEncoder K env s p).map (fun r => (some r.1, r.2))
  | Op.StartEncoder => some (some (StartEncoder s).1, (StartEncoder s).2)
  | Op.EncodeOneFrame d n out =>
    (EncodeOneFrame K env s d n out).map (fun r => (some r.1, r.2.1))
  | Op.StopEncoder => some (some (StopEncoder s).1, (StopEncoder s).2)
  | Op.DestroyEncoder => (DestroyEncoder s).map (fun s1 => (none, s1))
  | Op.ResetEncoder => (ResetEncoder K env s).map (fun r => (some r.1, r.2))
  | Op.ForceKeyFrame => (ForceKeyFrame env s).map (fun r => (some r.1, r.2))
  | Op.SetEncodeParams p => some (some (SetEncodeParams K s p).1, (SetEncodeParams K s p).2)

/-- The states a newly constructed adapter reaches by sequences of public
calls, in the outside world `env`. The adapter may be constructed at any point
of the life of the process: the file-scope variables and the calls issued
before are arbitrary. -/
inductive Reachable (K : ApiConsts) (env : Env) : Sys → Prop
  | initial (g : Globals) (t : List NativeCall) :
      Reachable K env { obj := VideoEncoderOpenH264.new, g := g, trace := t }
  | next (s s1 : Sys) (op : Op) (r : Option EncoderRetCode) :
      Reachable K env s → step K env s op = some (r, s1) → Reachable K env s1

/-- The reachable states in whose history some `InitEncoder` or
`SetEncodeParams` call has returned `VIDEO_ENCODER_SUCCESS`. With `changed` set,
a `SetEncodeParams` call counts only when its argument differed from the
parameters stored at the time. -/
inductive Accepted (K : ApiConsts) (env : Env) (changed : Bool) : Sys → Prop
  | init (s s1 : Sys) (p : EncodeParams) :
      Reachable K env s → InitEncoder K env s p = some (VIDEO_ENCODER_SUCCESS, s1) →
      Accepted K env changed s1
  | set (s : Sys) (p : EncodeParams) :
      Reachable K env s → (SetEncodeParams K s p).1 = VIDEO_ENCODER_SUCCESS →
      (changed = true → p ≠ s.obj.m_encParams) →
      Accepted K env changed (SetEncodeParams K s p).2
  | next (s s1 : Sys) (op : Op) (r : Option EncoderRetCode) :
      Accepted K env changed s → step K env s op = some (r, s1) → Accepted K env changed s1

/-- The smallest accepted picture: 16x16, 30 fps, 1 Mbit/s, GOP 30, baseline. -/
def smallParams : EncodeParams :=
  { width := 16, height := 16, frameRate := 30, bitrate := 1000000, gopSize := 30,
    profile := 66 }

/-- The largest accepted picture with otherwise the same values: 4096x4096. -/
def largeParams : EncodeParams :=
  { smallParams with width := 4096, height := 4096 }

/-- A fresh adapter initialised for 16x16 (every outside call succeeding) and
then given the 4096x4096 parameters by `SetEncodeParams`. -/
def smallThenLarge : Sys :=
  match InitEncoder sampleApi envOk Sys.initial smallParams with
  | some r => (SetEncodeParams sampleApi r.2 largeParams).2
  | none => Sys.initial

/-- The type code is one of the five the factory's `switch` statements name. -/
def ApiConsts.recognises (K : ApiConsts) (encType : Nat) : Prop :=
  encType = K.ENCODER_TYPE_OPENH264 ∨ encType = K.ENCODER_TYPE_NETINTH264 ∨
  encType = K.ENCODER_TYPE_NETINTH265 ∨ encType = K.ENCODER_TYPE_VPEH264 ∨
  encType = K.ENCODER_TYPE_VPEH265

/-! ## Auxiliary facts -/

/-- The modelled `operator==` holds exactly for equal values. -/
theorem EncodeParams.eq_iff (a b : EncodeParams) : a.eq b = true ↔ a = b := by
  cases a; cases b
  simp [EncodeParams.eq, and_assoc]

/-- The validator written as the conjunction of its bounds. -/
theorem VerifyEncodeParams_iff (K : ApiConsts) (p : EncodeParams) :
    VerifyEncodeParams K p = true ↔
      (16 ≤ p.width ∧ p.width ≤ 4096 ∧ 16 ≤ p.height ∧ p.height ≤ 4096 ∧
        (p.frameRate = 30 ∨ p.frameRate = 60) ∧
        1000000 ≤ p.bitrate ∧ p.bitrate ≤ 10000000 ∧
        30 ≤ p.gopSize ∧ p.gopSize ≤ 3000 ∧
        (p.profile = K.ENCODE_PROFILE_BASELINE ∨ p.profile = K.ENCODE_PROFILE_MAIN ∨
          p.profile = K.ENCODE_PROFILE_HIGH)) := by
  unfold VerifyEncodeParams
  simp only [WH_MIN, WH_MAX, FRAMERATE_MIN, FRAMERATE_MAX, BITRATE_MIN, BITRATE_MAX,
    GOPSIZE_MIN, GOPSIZE_MAX]
  constructor
  · intro h
    split at h
    · exact absurd h (by simp)
    · rename_i h1
      split at h
      · exact absurd h (by simp)
      · rename_i h2
        split at h
        · exact absurd h (by simp)
        · rename_i h3
          split at h
          · exact absurd h (by simp)
          · rename_i h4
            split at h
            · exact absurd h (by simp)
            · rename_i h5
              simp at h1 h2 h3 h4 h5
              refine ⟨by omega, by omega, by omega, by omega, ?_, by omega, by omega, by omega, by omega, ?_⟩
              · by_cases h30 : p.frameRate = 30
                · exact Or.inl h30
                · exact Or.inr (h2 h30)
              · by_cases hb : p.profile = K.ENCODE_PROFILE_BASELINE
                · exact Or.inl hb
                · by_cases hm : p.profile = K.ENCODE_PROFILE_MAIN
                  · exact Or.inr (Or.inl hm)
                  · exact Or.inr (Or.inr (h5 hb hm))
  · rintro ⟨a1, a2, a3, a4, a5, a6, a7, a8, a9, a10⟩
    have c1 : ¬ ((decide (p.width > 4096) || decide (p.height > 4096) ||
        decide (p.width < 16) || decide (p.height < 16)) = true) := by
      simp; omega
    have c2 : ¬ ((p.frameRate != 30 && p.frameRate != 60) = true) := by
      simp; intro h; rcases a5 with h' | h'
      · exact absurd h' h
      · exact h'
    have c3 : ¬ ((decide (p.bitrate < 1000000) || decide (p.bitrate > 10000000)) = true) := by
      simp; omega
    have c4 : ¬ ((decide (p.gopSize < 30) || decide (p.gopSize > 3000)) = true) := by
      simp; omega
    have c5 : ¬ ((p.profile != K.ENCODE_PROFILE_BASELINE && p.profile != K.ENCODE_PROFILE_MAIN &&
        p.profile != K.ENCODE_PROFILE_HIGH) = true) := by
      simp; intro hb hm; rcases a10 with h' | h' | h'
      · exact absurd h' hb
      · exact absurd h' hm
      · exact h'
    rw [if_neg c1, if_neg c2, if_neg c3, if_neg c4, if_neg c5]

/-- Binding never touches the adapter object. -/
theorem LoadOpenH264SharedLib_obj (env : Env) (s : Sys) :
    (LoadOpenH264SharedLib env s).2.obj = s.obj := by
  unfold LoadOpenH264SharedLib
  split
  · rfl
  · simp only [Sys.call]
    split
    · rfl
    · split
      · rfl
      · split <;> rfl

/-- What `InitParams` leaves alone, whatever it returns. -/
theorem InitParams_frame (K : ApiConsts) (env : Env) (s s' : Sys) (b : Bool)
    (h : InitParams K env s = some (b, s')) :
    s'.obj.m_encParams = s.obj.m_encParams ∧ s'.obj.m_resetFlag = s.obj.m_resetFlag ∧
    s'.obj.m_encoder = s.obj.m_encoder ∧ s'.obj.m_frameSize = s.obj.m_frameSize ∧
    s'.g = s.g ∧ s.obj.m_encoder ≠ 0 := by
  unfold InitParams at h
  split at h
  · exact absurd h (by simp)
  · rename_i hne
    have hne' : s.obj.m_encoder ≠ 0 := by simpa using hne
    simp only [Sys.call] at h
    split at h
    · simp only [Option.some.injEq, Prod.mk.injEq] at h
      obtain ⟨_, rfl⟩ := h
      exact ⟨rfl, rfl, rfl, rfl, rfl, hne'⟩
    · split at h
      · simp only [Option.some.injEq, Prod.mk.injEq] at h
        obtain ⟨_, rfl⟩ := h
        exact ⟨rfl, rfl, rfl, rfl, rfl, hne'⟩
      · split at h <;>
        · simp only [Option.some.injEq, Prod.mk.injEq] at h
          obtain ⟨_, rfl⟩ := h
          exact ⟨rfl, rfl, rfl, rfl, rfl, hne'⟩

/-- For validated dimensions the 32-bit frame size computation does not wrap. -/
theorem frameSize_no_wrap (w h : Nat) (hw : w ≤ 4096) (hh : h ≤ 4096) :
    (((w * h) % U32) * PRIMARY_COLOURS % U32) / COMPRESS_RATIO = w * h * 3 / 2 := by
  have hwh : w * h ≤ 4096 * 4096 := Nat.mul_le_mul hw hh
  simp only [U32, PRIMARY_COLOURS, COMPRESS_RATIO]
  rw [Nat.mod_eq_of_lt (by omega), Nat.mod_eq_of_lt (by omega)]

/-- What a successful `InitEncoder` establishes. -/
theorem InitEncoder_success (K : ApiConsts) (env : Env) (s s' : Sys) (p : EncodeParams)
    (h : InitEncoder K env s p = some (VIDEO_ENCODER_SUCCESS, s')) :
    VerifyEncodeParams K p = true ∧ s'.obj.m_encParams = p ∧
    s'.obj.m_resetFlag = s.obj.m_resetFlag ∧ s'.obj.m_encoder ≠ 0 ∧
    s'.obj.m_frameSize = p.width * p.height * 3 / 2 := by
  unfold InitEncoder at h
  split at h
  · exact absurd h (by simp)
  · rename_i hv
    have hv' : VerifyEncodeParams K p = true := by simpa using hv
    obtain ⟨_, hw, _, hh, _⟩ := (VerifyEncodeParams_iff K p).mp hv'
    simp only at h
    split at h
    · exact absurd h (by simp)
    · split at h
      · exact absurd h (by simp)
      · split at h
        · exact absurd h (by simp)
        · split at h
          · exact absurd h (by simp)
          · exact absurd h (by simp)
          · rename_i s5 hip
            simp only [Option.some.injEq, Prod.mk.injEq, true_and] at h
            subst h
            obtain ⟨h1, h2, h3, h4, _, h6⟩ := InitParams_frame K env _ _ _ hip
            simp only [Sys.call, LoadOpenH264SharedLib_obj] at h1 h2 h3 h4 h6
            refine ⟨hv', h1, h2, ?_, ?_⟩
            · rw [h3]; exact h6
            · rw [h4]; exact frameSize_no_wrap _ _ hw hh

/-- When every outside call succeeds and the file-scope variables are coherent,
binding succeeds and leaves a non-null create entry point. -/
theorem LoadOpenH264SharedLib_succeeds (env : Env) (s : Sys) (henv : env.allSucceed)
    (hg : s.g.bound) :
    (LoadOpenH264SharedLib env s).1 = true ∧
    (LoadOpenH264SharedLib env s).2.g.g_welsCreateSVCEncoder ≠ 0 := by
  unfold LoadOpenH264SharedLib
  split
  · rename_i hl
    exact ⟨rfl, (hg hl).2.1⟩
  · have e1 := (henv s.trace.length).1
    have e2 := (henv (s.trace.length + 1)).2.1
    have e3 := (henv (s.trace.length + 1 + 1)).2.1
    simp [Sys.call, e1, e2, e3]

/-- With a non-null encoder and every native call succeeding, `InitParams`
returns true. -/
theorem InitParams_succeeds (K : ApiConsts) (env : Env) (s : Sys) (henv : env.allSucceed)
    (hne : s.obj.m_encoder ≠ 0) : ∃ s', InitParams K env s = some (true, s') := by
  have e1 := (henv s.trace.length).2.2.2.2.1
  have e2 := (henv (s.trace.length + 1)).2.2.2.2.2.1
  have e3 := (henv (s.trace.length + 1 + 1)).2.2.2.2.2.2.1
  simp [InitParams, Sys.call, hne, e1, e2, e3]

/-- With valid parameters, coherent file-scope variables and every outside call
succeeding, `InitEncoder` returns `VIDEO_ENCODER_SUCCESS`. -/
theorem InitEncoder_succeeds (K : ApiConsts) (env : Env) (s : Sys) (q : EncodeParams)
    (hq : VerifyEncodeParams K q = true) (henv : env.allSucceed) (hg : s.g.bound) :
    ∃ s', InitEncoder K env s q = some (VIDEO_ENCODER_SUCCESS, s') := by
  obtain ⟨hl1, hl2⟩ := LoadOpenH264SharedLib_succeeds env
    { s with obj := { s.obj with m_encParams := q } } henv hg
  unfold InitEncoder
  simp only [hq, Bool.not_true, Bool.false_eq_true, if_false, hl1]
  rw [if_neg (by simpa using hl2)]
  have c1 := (henv (LoadOpenH264SharedLib env
    { s with obj := { s.obj with m_encParams := q } }).2.trace.length).2.2.1
  have c2 := (henv (LoadOpenH264SharedLib env
    { s with obj := { s.obj with m_encParams := q } }).2.trace.length).2.2.2.1
  simp only [c1, bne_self_eq_false, Bool.false_eq_true, if_false]
  obtain ⟨s5, h5⟩ := InitParams_succeeds K env
    { (LoadOpenH264SharedLib env { s with obj := { s.obj with m_encParams := q } }).2.call
        (NativeCall.WelsCreateSVCEncoder
          (LoadOpenH264SharedLib env
            { s with obj := { s.obj with m_encParams := q } }).2.g.g_welsCreateSVCEncoder) with
      obj :=
        { (LoadOpenH264SharedLib env
            { s with obj := { s.obj with m_encParams := q } }).2.obj with
          m_encoder := (env.WelsCreateSVCEncoder (LoadOpenH264SharedLib env
            { s with obj := { s.obj with m_encParams := q } }).2.trace.length).2
          m_frameSize :=
            (((q.width * q.height) % U32) * PRIMARY_COLOURS % U32) / COMPRESS_RATIO
          m_paramExt := SEncParamExt.zero
          m_srcPic := SSourcePicture.zero
          m_frameBSInfo := SFrameBSInfo.zero } } henv c2
  refine ⟨s5, ?_⟩
  simp only [LoadOpenH264SharedLib_obj] at h5 ⊢
  simp only [Sys.call] at h5 ⊢
  rw [h5]

/-- In `envOk` every outside call succeeds. -/
theorem envOk_allSucceed : envOk.allSucceed := by
  intro n
  refine ⟨?_, ?_, rfl, ?_, rfl, rfl, rfl, rfl, rfl⟩
  · show (4096 : Nat) ≠ 0
    decide
  · show 8192 + n ≠ 0
    omega
  · show 65536 + n ≠ 0
    omega

/-- `Release` keeps the parameters, the flag and the frame size. -/
theorem Release_frame (s s' : Sys) (h : Release s = some s') :
    s'.obj.m_encParams = s.obj.m_encParams ∧ s'.obj.m_resetFlag = s.obj.m_resetFlag ∧
    s'.obj.m_frameSize = s.obj.m_frameSize ∧ s'.g = s.g ∧ s'.obj.m_encoder = 0 := by
  unfold Release at h
  split at h
  · simp only [Sys.call] at h
    split at h
    · exact absurd h (by simp)
    · simp only [Option.some.injEq] at h
      subst h
      exact ⟨rfl, rfl, rfl, rfl, rfl⟩
  · rename_i hz
    simp only [Option.some.injEq] at h
    subst h
    exact ⟨rfl, rfl, rfl, rfl, by simpa using hz⟩

/-- `InitEncoder` never writes the pending-reset flag, whatever it returns. -/
theorem InitEncoder_resetFlag (K : ApiConsts) (env : Env) (s s' : Sys) (p : EncodeParams)
    (r : EncoderRetCode) (h : InitEncoder K env s p = some (r, s')) :
    s'.obj.m_resetFlag = s.obj.m_resetFlag := by
  unfold InitEncoder at h
  split at h
  · simp only [Option.some.injEq, Prod.mk.injEq] at h
    obtain ⟨_, rfl⟩ := h
    rfl
  · simp only at h
    split at h
    · simp only [Option.some.injEq, Prod.mk.injEq] at h
      obtain ⟨_, rfl⟩ := h
      rw [LoadOpenH264SharedLib_obj]
    · split at h
      · exact absurd h (by simp)
      · split at h
        · simp only [Option.some.injEq, Prod.mk.injEq] at h
          obtain ⟨_, rfl⟩ := h
          simp only [Sys.call, LoadOpenH264SharedLib_obj]
        · split at h
          · exact absurd h (by simp)
          · rename_i s5 hip
            simp only [Option.some.injEq, Prod.mk.injEq] at h
            obtain ⟨_, rfl⟩ := h
            have h2 := (InitParams_frame K env _ _ _ hip).2.1
            simpa only [Sys.call, LoadOpenH264SharedLib_obj] using h2
          · rename_i s5 hip
            simp only [Option.some.injEq, Prod.mk.injEq] at h
            obtain ⟨_, rfl⟩ := h
            have h2 := (InitParams_frame K env _ _ _ hip).2.1
            simpa only [Sys.call, LoadOpenH264SharedLib_obj] using h2

/-- `ResetEncoder` never writes the pending-reset flag, whatever it returns. -/
theorem ResetEncoder_resetFlag (K : ApiConsts) (env : Env) (s s' : Sys) (r : EncoderRetCode)
    (h : ResetEncoder K env s = some (r, s')) :
    s'.obj.m_resetFlag = s.obj.m_resetFlag := by
  unfold ResetEncoder DestroyEncoder at h
  split at h
  · exact absurd h (by simp)
  · rename_i s1 hrel
    split at h
    · exact absurd h (by simp)
    · rename_i ret s2 hinit
      have hf1 := (Release_frame s s1 hrel).2.1
      have hf2 := InitEncoder_resetFlag K env s1 s2 _ ret hinit
      simp only [StartEncoder] at h
      split at h
      · simp only [Option.some.injEq, Prod.mk.injEq] at h
        obtain ⟨_, rfl⟩ := h
        rw [hf2, hf1]
      · simp only [bne_self_eq_false, Bool.false_eq_true, if_false, Option.some.injEq,
          Prod.mk.injEq] at h
        obtain ⟨_, rfl⟩ := h
        rw [hf2, hf1]

/-- Once the loaded flag is set, binding returns true and does nothing. -/
theorem LoadOpenH264SharedLib_loaded (env : Env) (s : Sys)
    (h : s.g.g_openH264Loaded = true) : LoadOpenH264SharedLib env s = (true, s) := by
  unfold LoadOpenH264SharedLib
  rw [if_pos h]

/-- Binding returns the value the loaded flag has on return. -/
theorem LoadOpenH264SharedLib_ret (env : Env) (s : Sys) :
    (LoadOpenH264SharedLib env s).1 = (LoadOpenH264SharedLib env s).2.g.g_openH264Loaded := by
  unfold LoadOpenH264SharedLib
  split
  · rename_i h
    exact h.symm
  · rename_i h
    have hf : s.g.g_openH264Loaded = false := by simpa using h
    simp only [Sys.call]
    split
    · exact hf.symm
    · split
      · exact hf.symm
      · split
        · exact hf.symm
        · rfl

/-- Binding keeps the file-scope variables coherent. -/
theorem LoadOpenH264SharedLib_bound (env : Env) (s : Sys) (hb : s.g.bound) :
    (LoadOpenH264SharedLib env s).2.g.bound := by
  unfold LoadOpenH264SharedLib
  split
  · exact hb
  · rename_i h
    have hf : s.g.g_openH264Loaded = false := by simpa using h
    simp only [Sys.call]
    split
    · intro hl
      exact absurd (hf.symm.trans hl) (by simp)
    · rename_i h0
      split
      · intro hl
        exact absurd (hf.symm.trans hl) (by simp)
      · rename_i h1
        split
        · intro hl
          exact absurd (hf.symm.trans hl) (by simp)
        · rename_i h2
          intro _
          exact ⟨by simpa using h0, by simpa using h1, by simpa using h2⟩

/-- The state `InitParams` leaves when its three native calls succeed. -/
theorem InitParams_ok (K : ApiConsts) (env : Env) (s : Sys) (hne : s.obj.m_encoder ≠ 0)
    (h1 : (env.GetDefaultParams s.trace.length).1 = 0)
    (h2 : env.InitializeExt (s.trace.length + 1) = 0)
    (h3 : env.SetOption (s.trace.length + 2) = 0) :
    InitParams K env s = some (true,
      { obj := { s.obj with
          m_paramExt :=
            configureParamExt K s.obj.m_encParams (env.GetDefaultParams s.trace.length).2
          m_yLength := (s.obj.m_encParams.width * s.obj.m_encParams.height) % U32 }
        g := s.g
        trace := s.trace ++
          [NativeCall.GetDefaultParams s.obj.m_encoder,
           NativeCall.InitializeExt s.obj.m_encoder
             (configureParamExt K s.obj.m_encParams (env.GetDefaultParams s.trace.length).2),
           NativeCall.SetOption s.obj.m_encoder ENCODER_OPTION_DATAFORMAT videoFormatI420] }) := by
  simp [InitParams, Sys.call, hne, h1, h2, h3]

/-- The state `InitEncoder` leaves when the library is already bound and the
four native calls succeed. -/
theorem InitEncoder_ok (K : ApiConsts) (env : Env) (s : Sys) (q : EncodeParams)
    (hq : VerifyEncodeParams K q = true) (hl : s.g.g_openH264Loaded = true)
    (hc : s.g.g_welsCreateSVCEncoder ≠ 0)
    (h0 : (env.WelsCreateSVCEncoder s.trace.length).1 = 0)
    (he : (env.WelsCreateSVCEncoder s.trace.length).2 ≠ 0)
    (h1 : (env.GetDefaultParams (s.trace.length + 1)).1 = 0)
    (h2 : env.InitializeExt (s.trace.length + 2) = 0)
    (h3 : env.SetOption (s.trace.length + 3) = 0) :
    InitEncoder K env s q = some (VIDEO_ENCODER_SUCCESS,
      { obj := { s.obj with
          m_encParams := q
          m_encoder := (env.WelsCreateSVCEncoder s.trace.length).2
          m_frameSize := (((q.width * q.height) % U32) * PRIMARY_COLOURS % U32) / COMPRESS_RATIO
          m_paramExt := configureParamExt K q (env.GetDefaultParams (s.trace.length + 1)).2
          m_srcPic := SSourcePicture.zero
          m_frameBSInfo := SFrameBSInfo.zero
          m_yLength := (q.width * q.height) % U32 }
        g := s.g
        trace := s.trace ++
          [NativeCall.WelsCreateSVCEncoder s.g.g_welsCreateSVCEncoder,
           NativeCall.GetDefaultParams (env.WelsCreateSVCEncoder s.trace.length).2,
           NativeCall.InitializeExt (env.WelsCreateSVCEncoder s.trace.length).2
             (configureParamExt K q (env.GetDefaultParams (s.trace.length + 1)).2),
           NativeCall.SetOption (env.WelsCreateSVCEncoder s.trace.length).2
             ENCODER_OPTION_DATAFORMAT videoFormatI420] }) := by
  have hload := LoadOpenH264SharedLib_loaded env
    { s with obj := { s.obj with m_encParams := q } } hl
  unfold InitEncoder
  simp only [hq, Bool.not_true, Bool.false_eq_true, if_false, hload]
  rw [if_neg (by simpa using hc)]
  simp only [h0, bne_self_eq_false, Bool.false_eq_true, if_false]
  rw [InitParams_ok K env _ he (by simpa [Sys.call] using h1) (by simpa [Sys.call] using h2)
    (by simpa [Sys.call] using h3)]
  simp [Sys.call]

/-- The state `Release` leaves when there is a native context to release. -/
theorem Release_ok (s : Sys) (hne : s.obj.m_encoder ≠ 0)
    (hd : s.g.g_welsDestroySVCEncoder ≠ 0) :
    Release s = some
      { obj := { s.obj with m_encoder := 0 }
        g := s.g
        trace := s.trace ++
          [NativeCall.Uninitialize s.obj.m_encoder,
           NativeCall.WelsDestroySVCEncoder s.g.g_welsDestroySVCEncoder s.obj.m_encoder] } := by
  simp [Release, Sys.call, hne, hd]

/-- Without a native context `Release` does nothing. -/
theorem Release_null (s : Sys) (h0 : s.obj.m_encoder = 0) : Release s = some s := by
  simp [Release, h0]

/-- The state `ResetEncoder` leaves when a native context exists, the library
is bound and every outside call succeeds: the old context is released, a new
one is created and configured from the stored parameters. -/
theorem ResetEncoder_ok (K : ApiConsts) (env : Env) (s : Sys) (henv : env.allSucceed)
    (hq : VerifyEncodeParams K s.obj.m_encParams = true)
    (hne : s.obj.m_encoder ≠ 0) (hl : s.g.g_openH264Loaded = true)
    (hc : s.g.g_welsCreateSVCEncoder ≠ 0) (hd : s.g.g_welsDestroySVCEncoder ≠ 0) :
    ResetEncoder K env s = some (VIDEO_ENCODER_SUCCESS,
      { obj := { s.obj with
          m_encoder := (env.WelsCreateSVCEncoder (s.trace.length + 2)).2
          m_frameSize :=
            (((s.obj.m_encParams.width * s.obj.m_encParams.height) % U32)
              * PRIMARY_COLOURS % U32) / COMPRESS_RATIO
          m_paramExt :=
            configureParamExt K s.obj.m_encParams (env.GetDefaultParams (s.trace.length + 3)).2
          m_srcPic := SSourcePicture.zero
          m_frameBSInfo := SFrameBSInfo.zero
          m_yLength := (s.obj.m_encParams.width * s.obj.m_encParams.height) % U32 }
        g := s.g
        trace := s.trace ++
          [NativeCall.Uninitialize s.obj.m_encoder,
           NativeCall.WelsDestroySVCEncoder s.g.g_welsDestroySVCEncoder s.obj.m_encoder,
           NativeCall.WelsCreateSVCEncoder s.g.g_welsCreateSVCEncoder,
           NativeCall.GetDefaultParams (env.WelsCreateSVCEncoder (s.trace.length + 2)).2,
           NativeCall.InitializeExt (env.WelsCreateSVCEncoder (s.trace.length + 2)).2
             (configureParamExt K s.obj.m_encParams
               (env.GetDefaultParams (s.trace.length + 3)).2),
           NativeCall.SetOption (env.WelsCreateSVCEncoder (s.trace.length + 2)).2
             ENCODER_OPTION_DATAFORMAT videoFormatI420] }) := by
  have e0 := (henv (s.trace.length + 2)).2.2.1
  have e1 := (henv (s.trace.length + 2)).2.2.2.1
  have e2 := (henv (s.trace.length + 3)).2.2.2.2.1
  have e3 := (henv (s.trace.length + 4)).2.2.2.2.2.1
  have e4 := (henv (s.trace.length + 5)).2.2.2.2.2.2.1
  unfold ResetEncoder DestroyEncoder
  rw [Release_ok s hne hd]
  simp only
  have hI := InitEncoder_ok K env
    { obj := { s.obj with m_encoder := 0 }
      g := s.g
      trace := s.trace ++
        [NativeCall.Uninitialize s.obj.m_encoder,
         NativeCall.WelsDestroySVCEncoder s.g.g_welsDestroySVCEncoder s.obj.m_encoder] }
    s.obj.m_encParams hq hl hc (by simpa using e0) (by simpa using e1)
    (by simpa using e2) (by simpa using e3) (by simpa using e4)
  simp only [hI]
  simp [StartEncoder]

/-- The picture and bitrate members `configureParamExt` sets. -/
theorem configureParamExt_fields (K : ApiConsts) (e : EncodeParams) (d : SEncParamExt) :
    (configureParamExt K e d).iPicWidth = toInt32 e.width ∧
    (configureParamExt K e d).iPicHeight = toInt32 e.height ∧
    (configureParamExt K e d).iTargetBitrate = toInt32 e.bitrate ∧
    (configureParamExt K e d).iMaxBitrate = toInt32 e.bitrate :=
  ⟨rfl, rfl, rfl, rfl⟩

/-- Values below `2^31` survive the conversion to `int`. -/
theorem toInt32_small (n : Nat) (h : n < 2147483648) : toInt32 n = (n : Int) := by
  unfold toInt32 U32
  rw [Nat.mod_eq_of_lt (by omega), if_pos h]

/-- Non-negative values below `2^32` survive the conversion to `uint32_t`. -/
theorem toUInt32_natCast (n : Nat) (h : n < 4294967296) : toUInt32 (n : Int) = n := by
  unfold toUInt32
  omega

/-- `EncodeOneFrame` with the pending-reset flag set, a native context, the
library bound and every outside call succeeding: the old context is released,
a new one is created and configured from the stored parameters, the flag is
cleared, the frame is encoded and the outputs come from the native result. -/
theorem EncodeOneFrame_lazy_reset_ok (K : ApiConsts) (env : Env) (s : Sys)
    (inputData inputSize : Nat) (out : OutParams) (henv : env.allSucceed)
    (hflag : s.obj.m_resetFlag = true) (hsize : s.obj.m_frameSize ≤ inputSize)
    (hq : VerifyEncodeParams K s.obj.m_encParams = true)
    (hne : s.obj.m_encoder ≠ 0) (hl : s.g.g_openH264Loaded = true)
    (hc : s.g.g_welsCreateSVCEncoder ≠ 0) (hd : s.g.g_welsDestroySVCEncoder ≠ 0) :
    ∃ s1, EncodeOneFrame K env s inputData inputSize out =
        some (VIDEO_ENCODER_SUCCESS, s1,
          { outputData := (env.EncodeFrame (s.trace.length + 6)).2.pBsBuf
            outputSize := toUInt32 (env.EncodeFrame (s.trace.length + 6)).2.iFrameSizeInBytes }) ∧
      s1.obj.m_resetFlag = false ∧
      s1.obj.m_encParams = s.obj.m_encParams ∧
      s1.obj.m_encoder = (env.WelsCreateSVCEncoder (s.trace.length + 2)).2 ∧
      s1.obj.m_frameSize =
        (((s.obj.m_encParams.width * s.obj.m_encParams.height) % U32)
          * PRIMARY_COLOURS % U32) / COMPRESS_RATIO ∧
      s1.obj.m_paramExt =
        configureParamExt K s.obj.m_encParams (env.GetDefaultParams (s.trace.length + 3)).2 ∧
      s1.obj.m_srcPic.iPicWidth = toInt32 s.obj.m_encParams.width ∧
      s1.obj.m_srcPic.iPicHeight = toInt32 s.obj.m_encParams.height ∧
      s1.g = s.g ∧
      s1.trace = s.trace ++
        [NativeCall.Uninitialize s.obj.m_encoder,
         NativeCall.WelsDestroySVCEncoder s.g.g_welsDestroySVCEncoder s.obj.m_encoder,
         NativeCall.WelsCreateSVCEncoder s.g.g_welsCreateSVCEncoder,
         NativeCall.GetDefaultParams (env.WelsCreateSVCEncoder (s.trace.length + 2)).2,
         NativeCall.InitializeExt (env.WelsCreateSVCEncoder (s.trace.length + 2)).2
           (configureParamExt K s.obj.m_encParams
             (env.GetDefaultParams (s.trace.length + 3)).2),
         NativeCall.SetOption (env.WelsCreateSVCEncoder (s.trace.length + 2)).2
           ENCODER_OPTION_DATAFORMAT videoFormatI420,
         NativeCall.EncodeFrame (env.WelsCreateSVCEncoder (s.trace.length + 2)).2
           s1.obj.m_srcPic] := by
  have e1 := (henv (s.trace.length + 2)).2.2.2.1
  have e5 := (henv (s.trace.length + 6)).2.2.2.2.2.2.2.1
  unfold EncodeOneFrame
  rw [if_neg (by omega), if_pos hflag, ResetEncoder_ok K env s henv hq hne hl hc hd]
  simp only [bne_self_eq_false, Bool.false_eq_true, if_false]
  unfold encodeFrameStep
  simp only [InitSrcPic, Sys.call, List.length_append, List.length_cons, List.length_nil,
    beq_iff_eq, e1, if_false, e5, bne_self_eq_false, Bool.false_eq_true]
  refine ⟨_, rfl, rfl, rfl, rfl, rfl, rfl, rfl, rfl, rfl, ?_⟩
  simp

/-- What `InitParams` has written when it returns true. -/
theorem InitParams_true (K : ApiConsts) (env : Env) (s s' : Sys)
    (h : InitParams K env s = some (true, s')) :
    s'.obj.m_paramExt =
      configureParamExt K s.obj.m_encParams (env.GetDefaultParams s.trace.length).2 ∧
    s'.obj.m_yLength = (s.obj.m_encParams.width * s.obj.m_encParams.height) % U32 := by
  unfold InitParams at h
  split at h
  · exact absurd h (by simp)
  · simp only [Sys.call] at h
    split at h
    · exact absurd h (by simp)
    · split at h
      · exact absurd h (by simp)
      · split at h
        · exact absurd h (by simp)
        · simp only [Option.some.injEq, Prod.mk.injEq, true_and] at h
          subst h
          exact ⟨rfl, rfl⟩

/-- What a successful `InitEncoder` leaves in the negotiated parameters, the
luma length and the file-scope variables. -/
theorem InitEncoder_success_more (K : ApiConsts) (env : Env) (s s' : Sys) (p : EncodeParams)
    (h : InitEncoder K env s p = some (VIDEO_ENCODER_SUCCESS, s')) :
    (∃ d, s'.obj.m_paramExt = configureParamExt K p d) ∧
    s'.obj.m_yLength = (p.width * p.height) % U32 ∧
    s'.g.g_openH264Loaded = true ∧ s'.g.g_welsCreateSVCEncoder ≠ 0 ∧
    (s.g.bound → s'.g.bound) := by
  unfold InitEncoder at h
  split at h
  · exact absurd h (by simp)
  · simp only at h
    split at h
    · exact absurd h (by simp)
    · rename_i hl
      split at h
      · exact absurd h (by simp)
      · rename_i hc
        split at h
        · exact absurd h (by simp)
        · split at h
          · exact absurd h (by simp)
          · exact absurd h (by simp)
          · rename_i s5 hip
            simp only [Option.some.injEq, Prod.mk.injEq, true_and] at h
            subst h
            obtain ⟨h1, h2⟩ := InitParams_true K env _ _ hip
            obtain ⟨_, _, _, _, hg, _⟩ := InitParams_frame K env _ _ _ hip
            simp only [Sys.call, LoadOpenH264SharedLib_obj] at h1 h2 hg
            have hret := LoadOpenH264SharedLib_ret env
              { s with obj := { s.obj with m_encParams := p } }
            refine ⟨⟨_, h1⟩, h2, ?_, ?_, ?_⟩
            · rw [hg, ← hret]; simpa using hl
            · rw [hg]; simpa using hc
            · intro hb
              rw [hg]
              exact LoadOpenH264SharedLib_bound env
                { s with obj := { s.obj with m_encParams := p } } hb

/-- Whatever `InitEncoder` returns, either it stopped at validation and changed
nothing, or its argument is valid and is now stored. -/
theorem InitEncoder_params (K : ApiConsts) (env : Env) (s s' : Sys) (p : EncodeParams)
    (r : EncoderRetCode) (h : InitEncoder K env s p = some (r, s')) :
    (VerifyEncodeParams K p = false ∧ r = VIDEO_ENCODER_INIT_FAIL ∧ s' = s) ∨
    (VerifyEncodeParams K p = true ∧ s'.obj.m_encParams = p) := by
  unfold InitEncoder at h
  split at h
  · rename_i hv
    simp only [Option.some.injEq, Prod.mk.injEq] at h
    exact Or.inl ⟨by simpa using hv, h.1.symm, h.2.symm⟩
  · rename_i hv
    have hv' : VerifyEncodeParams K p = true := by simpa using hv
    refine Or.inr ⟨hv', ?_⟩
    simp only at h
    split at h
    · simp only [Option.some.injEq, Prod.mk.injEq] at h
      obtain ⟨_, rfl⟩ := h
      rw [LoadOpenH264SharedLib_obj]
    · split at h
      · exact absurd h (by simp)
      · split at h
        · simp only [Option.some.injEq, Prod.mk.injEq] at h
          obtain ⟨_, rfl⟩ := h
          simp only [Sys.call, LoadOpenH264SharedLib_obj]
        · split at h
          · exact absurd h (by simp)
          · rename_i s5 hip
            simp only [Option.some.injEq, Prod.mk.injEq] at h
            obtain ⟨_, rfl⟩ := h
            have h2 := (InitParams_frame K env _ _ _ hip).1
            simpa only [Sys.call, LoadOpenH264SharedLib_obj] using h2
          · rename_i s5 hip
            simp only [Option.some.injEq, Prod.mk.injEq] at h
            obtain ⟨_, rfl⟩ := h
            have h2 := (InitParams_frame K env _ _ _ hip).1
            simpa only [Sys.call, LoadOpenH264SharedLib_obj] using h2

/-- `ResetEncoder` written as its three steps: it returns
`VIDEO_ENCODER_SUCCESS` when `InitEncoder` on the stored parameters does, and
`VIDEO_ENCODER_RESET_FAIL` otherwise, in the state `InitEncoder` left. -/
theorem ResetEncoder_steps (K : ApiConsts) (env : Env) (s : Sys) :
    ResetEncoder K env s =
      (DestroyEncoder s).bind (fun s1 =>
        (InitEncoder K env s1 s1.obj.m_encParams).bind (fun r =>
          if r.1 = VIDEO_ENCODER_SUCCESS then some (VIDEO_ENCODER_SUCCESS, r.2)
          else some (VIDEO_ENCODER_RESET_FAIL, r.2))) := by
  unfold ResetEncoder
  cases hD : DestroyEncoder s with
  | none => simp
  | some s1 =>
    cases hI : InitEncoder K env s1 s1.obj.m_encParams with
    | none => simp [hI]
    | some r =>
      obtain ⟨ret, s2⟩ := r
      by_cases hr : ret = VIDEO_ENCODER_SUCCESS
      · subst hr; simp [hI, StartEncoder]
      · simp [hI, StartEncoder, hr]

/-- `ResetEncoder` keeps the stored parameters; afterwards the native context
is null or the stored parameters are valid. -/
theorem ResetEncoder_params (K : ApiConsts) (env : Env) (s s' : Sys) (r : EncoderRetCode)
    (h : ResetEncoder K env s = some (r, s')) :
    s'.obj.m_encParams = s.obj.m_encParams ∧
    (s'.obj.m_encoder = 0 ∨ VerifyEncodeParams K s'.obj.m_encParams = true) := by
  rw [ResetEncoder_steps] at h
  cases hD : DestroyEncoder s with
  | none => rw [hD] at h; exact absurd h (by simp)
  | some s1 =>
    obtain ⟨hp1, _, _, _, he1⟩ := Release_frame s s1 hD
    cases hI : InitEncoder K env s1 s1.obj.m_encParams with
    | none => simp [hD, hI] at h
    | some r2 =>
      obtain ⟨ret, s2⟩ := r2
      simp only [hD, hI, Option.some_bind] at h
      have hs2 : s2 = s' := by
        split at h <;>
        · simp only [Option.some.injEq, Prod.mk.injEq] at h
          exact h.2
      subst hs2
      rcases InitEncoder_params K env s1 s2 _ ret hI with ⟨_, _, hs⟩ | ⟨hv, hp⟩
      · subst hs
        exact ⟨hp1, Or.inl he1⟩
      · exact ⟨hp.trans hp1, Or.inr (by rw [hp]; exact hv)⟩

/-- The encode step keeps the stored parameters and the native context. -/
theorem encodeFrameStep_params (env : Env) (s s' : Sys) (d : Nat) (out out' : OutParams)
    (r : EncoderRetCode) (h : encodeFrameStep env s d out = some (r, s', out')) :
    s'.obj.m_encParams = s.obj.m_encParams ∧ s'.obj.m_encoder = s.obj.m_encoder := by
  unfold encodeFrameStep at h
  simp only [InitSrcPic, Sys.call] at h
  split at h
  · exact absurd h (by simp)
  · split at h <;>
    · simp only [Option.some.injEq, Prod.mk.injEq] at h
      obtain ⟨_, rfl, _⟩ := h
      exact ⟨rfl, rfl⟩

/-- `EncodeOneFrame` keeps the stored parameters; afterwards the native context
is the one before, or null, or the stored parameters are valid. -/
theorem EncodeOneFrame_params (K : ApiConsts) (env : Env) (s s' : Sys) (d n : Nat)
    (out out' : OutParams) (r : EncoderRetCode)
    (h : EncodeOneFrame K env s d n out = some (r, s', out')) :
    s'.obj.m_encParams = s.obj.m_encParams ∧
    (s'.obj.m_encoder = s.obj.m_encoder ∨ s'.obj.m_encoder = 0 ∨
      VerifyEncodeParams K s'.obj.m_encParams = true) := by
  unfold EncodeOneFrame at h
  split at h
  · simp only [Option.some.injEq, Prod.mk.injEq] at h
    obtain ⟨_, rfl, _⟩ := h
    exact ⟨rfl, Or.inl rfl⟩
  · split at h
    · split at h
      · exact absurd h (by simp)
      · rename_i ret s1 hR
        obtain ⟨hp, he⟩ := ResetEncoder_params K env s s1 ret hR
        split at h
        · simp only [Option.some.injEq, Prod.mk.injEq] at h
          obtain ⟨_, rfl, _⟩ := h
          exact ⟨hp, Or.inr he⟩
        · obtain ⟨hp2, he2⟩ := encodeFrameStep_params env _ s' d out out' r h
          simp only at hp2 he2
          refine ⟨hp2.trans hp, Or.inr ?_⟩
          rw [he2, hp2]
          exact he
    · obtain ⟨hp2, he2⟩ := encodeFrameStep_params env _ s' d out out' r h
      exact ⟨hp2, Or.inl he2⟩

/-- After any public call, the stored parameters are the ones before or valid,
and the native context is the one before, or null, or the stored parameters
are valid. -/
theorem step_params (K : ApiConsts) (env : Env) (s s1 : Sys) (op : Op)
    (r : Option EncoderRetCode) (h : step K env s op = some (r, s1)) :
    (s1.obj.m_encParams = s.obj.m_encParams ∨
      VerifyEncodeParams K s1.obj.m_encParams = true) ∧
    (s1.obj.m_encoder = s.obj.m_encoder ∨ s1.obj.m_encoder = 0 ∨
      VerifyEncodeParams K s1.obj.m_encParams = true) := by
  cases op with
  | InitEncoder p =>
    simp only [step, Option.map_eq_some', Prod.mk.injEq] at h
    obtain ⟨⟨ret, s2⟩, hI, _, rfl⟩ := h
    rcases InitEncoder_params K env s s2 p ret hI with ⟨_, _, hs⟩ | ⟨hv, hp⟩
    · subst hs
      exact ⟨Or.inl rfl, Or.inl rfl⟩
    · have hv2 : VerifyEncodeParams K s2.obj.m_encParams = true := by rw [hp]; exact hv
      exact ⟨Or.inr hv2, Or.inr (Or.inr hv2)⟩
  | StartEncoder =>
    simp only [step, StartEncoder, Option.some.injEq, Prod.mk.injEq] at h
    obtain ⟨_, rfl⟩ := h
    exact ⟨Or.inl rfl, Or.inl rfl⟩
  | EncodeOneFrame d n out =>
    simp only [step, Option.map_eq_some', Prod.mk.injEq] at h
    obtain ⟨⟨ret, s2, out2⟩, hE, _, rfl⟩ := h
    obtain ⟨hp, he⟩ := EncodeOneFrame_params K env s s2 d n out out2 ret hE
    exact ⟨Or.inl hp, he⟩
  | StopEncoder =>
    simp only [step, StopEncoder, Option.some.injEq, Prod.mk.injEq] at h
    obtain ⟨_, rfl⟩ := h
    exact ⟨Or.inl rfl, Or.inl rfl⟩
  | DestroyEncoder =>
    simp only [step, Option.map_eq_some', Prod.mk.injEq] at h
    obtain ⟨s2, hD, _, rfl⟩ := h
    obtain ⟨hp, _, _, _, he⟩ := Release_frame s s2 hD
    exact ⟨Or.inl hp, Or.inr (Or.inl he)⟩
  | ResetEncoder =>
    simp only [step, Option.map_eq_some', Prod.mk.injEq] at h
    obtain ⟨⟨ret, s2⟩, hR, _, rfl⟩ := h
    obtain ⟨hp, he⟩ := ResetEncoder_params K env s s2 ret hR
    exact ⟨Or.inl hp, Or.inr he⟩
  | ForceKeyFrame =>
    simp only [step, ForceKeyFrame, Sys.call, Option.map_eq_some', Prod.mk.injEq] at h
    obtain ⟨⟨ret, s2⟩, hF, _, rfl⟩ := h
    split at hF
    · exact absurd hF (by simp)
    · split at hF <;>
      · simp only [Option.some.injEq, Prod.mk.injEq] at hF
        obtain ⟨_, rfl⟩ := hF
        exact ⟨Or.inl rfl, Or.inl rfl⟩
  | SetEncodeParams p =>
    simp only [step, Option.some.injEq, Prod.mk.injEq] at h
    obtain ⟨_, rfl⟩ := h
    unfold SetEncodeParams
    split
    · exact ⟨Or.inl rfl, Or.inl rfl⟩
    · split
      · exact ⟨Or.inl rfl, Or.inl rfl⟩
      · rename_i hv
        exact ⟨Or.inr (by simpa using hv), Or.inl rfl⟩

/-- In every reachable state, a native context exists only with valid stored
parameters, and the stored parameters are valid or still value-initialised. -/
theorem Reachable_inv (K : ApiConsts) (env : Env) (s : Sys) (h : Reachable K env s) :
    (s.obj.m_encoder ≠ 0 → VerifyEncodeParams K s.obj.m_encParams = true) ∧
    (s.obj.m_encParams = EncodeParams.zero ∨
      VerifyEncodeParams K s.obj.m_encParams = true) := by
  induction h with
  | initial g t => exact ⟨fun h => absurd rfl h, Or.inl rfl⟩
  | next s s1 op r _ hstep ih =>
    obtain ⟨hp, he⟩ := step_params K env s s1 op r hstep
    constructor
    · intro hne
      rcases he with he | he | he
      · rcases hp with hp | hp
        · rw [hp]; exact ih.1 (by rw [← he]; exact hne)
        · exact hp
      · exact absurd he hne
      · exact he
    · rcases hp with hp | hp
      · rw [hp]; exact ih.2
      · exact Or.inr hp

/-- What a successful `ResetEncoder` establishes. -/
theorem ResetEncoder_success (K : ApiConsts) (env : Env) (s s' : Sys)
    (h : ResetEncoder K env s = some (VIDEO_ENCODER_SUCCESS, s')) :
    s'.obj.m_encParams = s.obj.m_encParams ∧
    VerifyEncodeParams K s.obj.m_encParams = true ∧
    s'.obj.m_encoder ≠ 0 ∧ s'.g.g_openH264Loaded = true ∧
    s'.g.g_welsCreateSVCEncoder ≠ 0 ∧ (s.g.bound → s'.g.bound) := by
  rw [ResetEncoder_steps] at h
  cases hD : DestroyEncoder s with
  | none => simp [hD] at h
  | some s1 =>
    obtain ⟨hp1, _, _, hg1, _⟩ := Release_frame s s1 hD
    cases hI : InitEncoder K env s1 s1.obj.m_encParams with
    | none => simp [hD, hI] at h
    | some r2 =>
      obtain ⟨ret, s2⟩ := r2
      simp only [hD, hI, Option.some_bind] at h
      split at h
      · rename_i hret
        simp only [Option.some.injEq, Prod.mk.injEq, true_and] at h
        subst h
        have hret2 : ret = VIDEO_ENCODER_SUCCESS := hret
        subst hret2
        obtain ⟨hv, hp, _, he, _⟩ := InitEncoder_success K env s1 s2 _ hI
        obtain ⟨_, _, hl, hc, hb⟩ := InitEncoder_success_more K env s1 s2 _ hI
        refine ⟨hp.trans hp1, by rw [← hp1]; exact hv, he, hl, hc, fun hbs => hb ?_⟩
        rw [hg1]; exact hbs
      · simp at h

/-! ## The claims -/

/-- C1: `VerifyEncodeParams` returns true exactly when every bound of the table
holds (width and height in [16, 4096], frame rate 30 or 60, bitrate in
[1000000, 10000000], GOP size in [30, 3000], profile baseline, main or high);
and for every accepted value, moving one field one unit outside its bound
(width or height 15 or 4097, frame rate 29, 31, 59 or 61, bitrate 999999 or
10000001, GOP size 29 or 3001) makes it return false. -/
theorem VerifyEncodeParams_accepts_exactly_the_table (K : ApiConsts) :
    (∀ p : EncodeParams, VerifyEncodeParams K p = true ↔
      (16 ≤ p.width ∧ p.width ≤ 4096 ∧ 16 ≤ p.height ∧ p.height ≤ 4096 ∧
        (p.frameRate = 30 ∨ p.frameRate = 60) ∧
        1000000 ≤ p.bitrate ∧ p.bitrate ≤ 10000000 ∧
        30 ≤ p.gopSize ∧ p.gopSize ≤ 3000 ∧
        (p.profile = K.ENCODE_PROFILE_BASELINE ∨ p.profile = K.ENCODE_PROFILE_MAIN ∨
          p.profile = K.ENCODE_PROFILE_HIGH))) ∧
    (∀ p : EncodeParams, VerifyEncodeParams K p = true →
      VerifyEncodeParams K { p with width := 15 } = false ∧
      VerifyEncodeParams K { p with width := 4097 } = false ∧
      VerifyEncodeParams K { p with height := 15 } = false ∧
      VerifyEncodeParams K { p with height := 4097 } = false ∧
      VerifyEncodeParams K { p with frameRate := 29 } = false ∧
      VerifyEncodeParams K { p with frameRate := 31 } = false ∧
      VerifyEncodeParams K { p with frameRate := 59 } = false ∧
      VerifyEncodeParams K { p with frameRate := 61 } = false ∧
      VerifyEncodeParams K { p with bitrate := 999999 } = false ∧
      VerifyEncodeParams K { p with bitrate := 10000001 } = false ∧
      VerifyEncodeParams K { p with gopSize := 29 } = false ∧
      VerifyEncodeParams K { p with gopSize := 3001 } = false) := by
  refine ⟨fun p => VerifyEncodeParams_iff K p, fun p _ => ?_⟩
  have key : ∀ q : EncodeParams,
      ¬ (16 ≤ q.width ∧ q.width ≤ 4096 ∧ 16 ≤ q.height ∧ q.height ≤ 4096 ∧
        (q.frameRate = 30 ∨ q.frameRate = 60) ∧
        1000000 ≤ q.bitrate ∧ q.bitrate ≤ 10000000 ∧
        30 ≤ q.gopSize ∧ q.gopSize ≤ 3000 ∧
        (q.profile = K.ENCODE_PROFILE_BASELINE ∨ q.profile = K.ENCODE_PROFILE_MAIN ∨
          q.profile = K.ENCODE_PROFILE_HIGH)) → VerifyEncodeParams K q = false := by
    intro q hq
    cases hv : VerifyEncodeParams K q
    · rfl
    · exact absurd ((VerifyEncodeParams_iff K q).mp hv) hq
  refine ⟨?_, ?_, ?_, ?_, ?_, ?_, ?_, ?_, ?_, ?_, ?_, ?_⟩ <;>
    exact key _ (by simp)

/-- C1, at the end-to-end parameters: 1280x720 at 30 fps is accepted, and the
same value with width 15 is rejected. -/
theorem VerifyEncodeParams_accepts_exactly_the_table_witness :
    VerifyEncodeParams sampleApi sampleParams = true ∧
    VerifyEncodeParams sampleApi { sampleParams with width := 15 } = false :=
  ⟨by decide,
    ((VerifyEncodeParams_accepts_exactly_the_table sampleApi).2 sampleParams (by decide)).1⟩

/-- C2: after a successful `InitEncoder p`, with the pending-reset flag in
either position, `EncodeOneFrame` with an input shorter than
`p.width * p.height * 3 / 2` returns `VIDEO_ENCODER_ENCODE_FAIL` and returns the
whole state (adapter members, file-scope variables, trace of native calls) and
the caller's output variables exactly as it found them. -/
theorem EncodeOneFrame_undersized_input (K : ApiConsts) (env env2 : Env) (s s' : Sys)
    (p : EncodeParams) (flag : Bool) (inputData inputSize : Nat) (out : OutParams)
    (hinit : InitEncoder K env s p = some (VIDEO_ENCODER_SUCCESS, s'))
    (hsize : inputSize < p.width * p.height * 3 / 2) :
    EncodeOneFrame K env2 { s' with obj := { s'.obj with m_resetFlag := flag } }
        inputData inputSize out =
      some (VIDEO_ENCODER_ENCODE_FAIL,
        { s' with obj := { s'.obj with m_resetFlag := flag } }, out) := by
  obtain ⟨_, _, _, _, hfs⟩ := InitEncoder_success K env s s' p hinit
  unfold EncodeOneFrame
  have hlt : inputSize < s'.obj.m_frameSize := by rw [hfs]; exact hsize
  simp [hlt]

/-- C2, at the end-to-end parameters: a 1000-byte input to a 1280x720 encoder
with the flag set is rejected without any effect. -/
theorem EncodeOneFrame_undersized_input_witness :
    EncodeOneFrame sampleApi envOk
        { sampleInitialised with obj := { sampleInitialised.obj with m_resetFlag := true } }
        0 1000 { outputData := 0, outputSize := 0 } =
      some (VIDEO_ENCODER_ENCODE_FAIL,
        { sampleInitialised with obj := { sampleInitialised.obj with m_resetFlag := true } },
        { outputData := 0, outputSize := 0 }) :=
  EncodeOneFrame_undersized_input sampleApi envOk envOk Sys.initial sampleInitialised
    sampleParams true 0 1000 { outputData := 0, outputSize := 0 } (by rfl) (by decide)

/-- C3 as stated fails: with an unrecognised type code 99 and a caller variable
holding 7, the call reports failure but the variable still holds 7, not null. -/
theorem CreateVideoEncoder_unknown_type_handle_not_nulled :
    (99 ≠ sampleApi.ENCODER_TYPE_OPENH264 ∧ 99 ≠ sampleApi.ENCODER_TYPE_NETINTH264 ∧
      99 ≠ sampleApi.ENCODER_TYPE_NETINTH265 ∧ 99 ≠ sampleApi.ENCODER_TYPE_VPEH264 ∧
      99 ≠ sampleApi.ENCODER_TYPE_VPEH265) ∧
    (CreateVideoEncoder sampleApi 500 99 7).ret = VIDEO_ENCODER_CREATE_FAIL ∧
    (CreateVideoEncoder sampleApi 500 99 7).encoder = 7 ∧
    (CreateVideoEncoder sampleApi 500 99 7).encoder ≠ 0 := by
  decide

/-- C3, amended: for every type code that is not one of the five recognised
ones, `CreateVideoEncoder` returns `VIDEO_ENCODER_CREATE_FAIL`, requests no
object, and leaves the caller's handle variable as it was; in particular the
handle is null when the caller initialised it to null. -/
theorem CreateVideoEncoder_unknown_type (K : ApiConsts) (alloc encType encoder : Nat)
    (h1 : encType ≠ K.ENCODER_TYPE_OPENH264) (h2 : encType ≠ K.ENCODER_TYPE_NETINTH264)
    (h3 : encType ≠ K.ENCODER_TYPE_NETINTH265) (h4 : encType ≠ K.ENCODER_TYPE_VPEH264)
    (h5 : encType ≠ K.ENCODER_TYPE_VPEH265) :
    (CreateVideoEncoder K alloc encType encoder).ret = VIDEO_ENCODER_CREATE_FAIL ∧
    (CreateVideoEncoder K alloc encType encoder).requested = none ∧
    (CreateVideoEncoder K alloc encType encoder).encoder = encoder ∧
    (encoder = 0 → (CreateVideoEncoder K alloc encType encoder).encoder = 0) := by
  simp [CreateVideoEncoder, h1, h2, h3, h4, h5]

/-- C3, amended, at type code 99 with a null handle variable. -/
theorem CreateVideoEncoder_unknown_type_witness :
    (CreateVideoEncoder sampleApi 500 99 0).ret = VIDEO_ENCODER_CREATE_FAIL ∧
    (CreateVideoEncoder sampleApi 500 99 0).requested = none ∧
    (CreateVideoEncoder sampleApi 500 99 0).encoder = 0 ∧
    ((0 : Nat) = 0 → (CreateVideoEncoder sampleApi 500 99 0).encoder = 0) :=
  CreateVideoEncoder_unknown_type sampleApi 500 99 0 (by decide) (by decide) (by decide)
    (by decide) (by decide)

/-- C4: for every type code, `DestroyVideoEncoder` with a null handle returns
`VIDEO_ENCODER_SUCCESS` and deletes nothing. -/
theorem DestroyVideoEncoder_null_handle (K : ApiConsts) (encType : Nat) :
    DestroyVideoEncoder K encType 0 = (VIDEO_ENCODER_SUCCESS, none) := by
  simp [DestroyVideoEncoder]

/-- C5: `SetEncodeParams` is idempotent. Whenever `SetEncodeParams p` returns
`VIDEO_ENCODER_SUCCESS`, calling it again with the same `p` returns
`VIDEO_ENCODER_SUCCESS` and changes nothing: the stored parameters and the
pending-reset flag (and every other member) are as the first call left them. -/
theorem SetEncodeParams_idempotent (K : ApiConsts) (s : Sys) (p : EncodeParams)
    (h : (SetEncodeParams K s p).1 = VIDEO_ENCODER_SUCCESS) :
    SetEncodeParams K (SetEncodeParams K s p).2 p =
        (VIDEO_ENCODER_SUCCESS, (SetEncodeParams K s p).2) ∧
    (SetEncodeParams K (SetEncodeParams K s p).2 p).2.obj.m_encParams =
        (SetEncodeParams K s p).2.obj.m_encParams ∧
    (SetEncodeParams K (SetEncodeParams K s p).2 p).2.obj.m_resetFlag =
        (SetEncodeParams K s p).2.obj.m_resetFlag := by
  have hstored : (SetEncodeParams K s p).2.obj.m_encParams = p := by
    unfold SetEncodeParams at h ⊢
    split
    · rename_i he
      exact ((EncodeParams.eq_iff _ _).mp he).symm
    · rename_i he
      rw [if_neg he] at h
      split
      · rename_i hv
        rw [if_pos hv] at h
        exact absurd h (by simp)
      · rfl
  have hsecond : SetEncodeParams K (SetEncodeParams K s p).2 p =
      (VIDEO_ENCODER_SUCCESS, (SetEncodeParams K s p).2) := by
    generalize (SetEncodeParams K s p).2 = t at hstored
    unfold SetEncodeParams
    rw [if_pos ((EncodeParams.eq_iff _ _).mpr hstored.symm)]
  refine ⟨hsecond, ?_, ?_⟩ <;> rw [hsecond]

/-- C5, at a started encoder whose bitrate is raised to 6 Mbit/s twice. -/
theorem SetEncodeParams_idempotent_witness :
    SetEncodeParams sampleApi
        (SetEncodeParams sampleApi sampleInitialised
          { sampleParams with bitrate := 6000000 }).2
        { sampleParams with bitrate := 6000000 } =
      (VIDEO_ENCODER_SUCCESS,
        (SetEncodeParams sampleApi sampleInitialised
          { sampleParams with bitrate := 6000000 }).2) :=
  (SetEncodeParams_idempotent sampleApi sampleInitialised
    { sampleParams with bitrate := 6000000 } (by decide)).1

/-- C6: `SetEncodeParams` fails atomically. When the new parameters differ from
the stored ones and fail validation, it returns
`VIDEO_ENCODER_SET_ENCODE_PARAMS_FAIL` and the state is unchanged: stored
parameters, pending-reset flag, expected frame size, native context, and the
trace of native calls. -/
theorem SetEncodeParams_fails_atomically (K : ApiConsts) (s : Sys) (p : EncodeParams)
    (hne : p ≠ s.obj.m_encParams) (hbad : VerifyEncodeParams K p = false) :
    SetEncodeParams K s p = (VIDEO_ENCODER_SET_ENCODE_PARAMS_FAIL, s) ∧
    (SetEncodeParams K s p).2.obj.m_encParams = s.obj.m_encParams ∧
    (SetEncodeParams K s p).2.obj.m_resetFlag = s.obj.m_resetFlag ∧
    (SetEncodeParams K s p).2.obj.m_frameSize = s.obj.m_frameSize ∧
    (SetEncodeParams K s p).2.obj.m_encoder = s.obj.m_encoder ∧
    (SetEncodeParams K s p).2.trace = s.trace := by
  have he : ¬ (p.eq s.obj.m_encParams = true) := fun h => hne ((EncodeParams.eq_iff _ _).mp h)
  have hr : SetEncodeParams K s p = (VIDEO_ENCODER_SET_ENCODE_PARAMS_FAIL, s) := by
    unfold SetEncodeParams
    rw [if_neg he, hbad]
    rfl
  rw [hr]
  exact ⟨rfl, rfl, rfl, rfl, rfl, rfl⟩

/-- C6, at a started encoder offered a width of 8. -/
theorem SetEncodeParams_fails_atomically_witness :
    SetEncodeParams sampleApi sampleInitialised { sampleParams with width := 8 } =
      (VIDEO_ENCODER_SET_ENCODE_PARAMS_FAIL, sampleInitialised) :=
  (SetEncodeParams_fails_atomically sampleApi sampleInitialised
    { sampleParams with width := 8 } (by decide) (by decide)).1

/-- C7: `SetEncodeParams` defers reconfiguration. When the new parameters
differ from the stored ones and pass validation, it returns
`VIDEO_ENCODER_SUCCESS`, stores the new parameters and sets the pending-reset
flag, and nothing else changes: no native call is added to the trace, and the
native context, the negotiated native parameters, the expected frame size and
the file-scope variables are as before. -/
theorem SetEncodeParams_defers_reconfiguration (K : ApiConsts) (s : Sys) (p : EncodeParams)
    (hne : p ≠ s.obj.m_encParams) (hok : VerifyEncodeParams K p = true) :
    SetEncodeParams K s p =
      (VIDEO_ENCODER_SUCCESS,
        { s with obj := { s.obj with m_encParams := p, m_resetFlag := true } }) ∧
    (SetEncodeParams K s p).1 = VIDEO_ENCODER_SUCCESS ∧
    (SetEncodeParams K s p).2.obj.m_encParams = p ∧
    (SetEncodeParams K s p).2.obj.m_resetFlag = true ∧
    (SetEncodeParams K s p).2.trace = s.trace ∧
    (SetEncodeParams K s p).2.obj.m_encoder = s.obj.m_encoder ∧
    (SetEncodeParams K s p).2.obj.m_paramExt = s.obj.m_paramExt ∧
    (SetEncodeParams K s p).2.obj.m_frameSize = s.obj.m_frameSize ∧
    (SetEncodeParams K s p).2.g = s.g := by
  have he : ¬ (p.eq s.obj.m_encParams = true) := fun h => hne ((EncodeParams.eq_iff _ _).mp h)
  have hr : SetEncodeParams K s p =
      (VIDEO_ENCODER_SUCCESS,
        { s with obj := { s.obj with m_encParams := p, m_resetFlag := true } }) := by
    unfold SetEncodeParams
    rw [if_neg he, hok]
    rfl
  rw [hr]
  exact ⟨rfl, rfl, rfl, rfl, rfl, rfl, rfl, rfl, rfl⟩

/-- C7, at a started encoder whose bitrate is raised to 6 Mbit/s. -/
theorem SetEncodeParams_defers_reconfiguration_witness :
    (SetEncodeParams sampleApi sampleInitialised
        { sampleParams with bitrate := 6000000 }).1 = VIDEO_ENCODER_SUCCESS ∧
    (SetEncodeParams sampleApi sampleInitialised
        { sampleParams with bitrate := 6000000 }).2.obj.m_resetFlag = true ∧
    (SetEncodeParams sampleApi sampleInitialised
        { sampleParams with bitrate := 6000000 }).2.trace = sampleInitialised.trace :=
  have h := SetEncodeParams_defers_reconfiguration sampleApi sampleInitialised
    { sampleParams with bitrate := 6000000 } (by decide) (by decide)
  ⟨h.2.1, h.2.2.2.1, h.2.2.2.2.1⟩

/-- C8: `InitEncoder` fails fast on invalid parameters. When `p` fails
validation, `InitEncoder p` returns `VIDEO_ENCODER_INIT_FAIL` and the state is
unchanged (no member written, no binding or native call in the trace); so
`InitEncoder p` followed by `InitEncoder q` gives the result and the state of
`InitEncoder q` alone, which is `VIDEO_ENCODER_SUCCESS` when `q` is valid, the
file-scope variables are coherent and every outside call succeeds. -/
theorem InitEncoder_invalid_params_fail_fast (K : ApiConsts) (env : Env) (s : Sys)
    (p : EncodeParams) (hbad : VerifyEncodeParams K p = false) :
    InitEncoder K env s p = some (VIDEO_ENCODER_INIT_FAIL, s) ∧
    (∀ (env2 : Env) (q : EncodeParams),
      (InitEncoder K env s p).bind (fun r => InitEncoder K env2 r.2 q) =
        InitEncoder K env2 s q) ∧
    (∀ (env2 : Env) (q : EncodeParams),
      VerifyEncodeParams K q = true → env2.allSucceed → s.g.bound →
        ∃ s2, (InitEncoder K env s p).bind (fun r => InitEncoder K env2 r.2 q) =
          some (VIDEO_ENCODER_SUCCESS, s2)) := by
  have hr : InitEncoder K env s p = some (VIDEO_ENCODER_INIT_FAIL, s) := by
    unfold InitEncoder
    rw [hbad]
    rfl
  refine ⟨hr, fun env2 q => ?_, fun env2 q hq henv hg => ?_⟩
  · rw [hr]; rfl
  · rw [hr]
    exact InitEncoder_succeeds K env2 s q hq henv hg

/-- C8, at a fresh adapter: width 8 is refused with no effect, and the
end-to-end parameters are then accepted with `VIDEO_ENCODER_SUCCESS`. -/
theorem InitEncoder_invalid_params_fail_fast_witness :
    InitEncoder sampleApi envOk Sys.initial { sampleParams with width := 8 } =
      some (VIDEO_ENCODER_INIT_FAIL, Sys.initial) ∧
    ∃ s2, (InitEncoder sampleApi envOk Sys.initial { sampleParams with width := 8 }).bind
        (fun r => InitEncoder sampleApi envOk r.2 sampleParams) =
      some (VIDEO_ENCODER_SUCCESS, s2) :=
  have h := InitEncoder_invalid_params_fail_fast sampleApi envOk Sys.initial
    { sampleParams with width := 8 } (by decide)
  ⟨h.1, h.2.2 envOk sampleParams (by decide) envOk_allSucceed
    (fun hl => absurd hl (by decide))⟩

/-- C9 as stated fails: from a fresh adapter (no native context), when the
encoder is created but `GetDefaultParams` fails, `InitEncoder` returns
`VIDEO_ENCODER_INIT_FAIL` and the adapter still holds the created context. -/
theorem InitEncoder_failure_keeps_created_context :
    Sys.initial.obj.m_encoder = 0 ∧
    (InitEncoder sampleApi envNoDefaults Sys.initial sampleParams).map
        (fun r => (r.1, r.2.obj.m_encoder)) = some (VIDEO_ENCODER_INIT_FAIL, 65539) ∧
    (65539 : Nat) ≠ 0 := by
  decide

/-- C9, amended: starting from an adapter with no native context, when
`InitEncoder p` returns `VIDEO_ENCODER_INIT_FAIL` at validation or at library
binding the native context is still null; when it fails at a later step the
native context is whatever the create call stored, and that is non-null when
the creation itself succeeded (the failure was in `GetDefaultParams`,
`InitializeExt` or `SetOption`). -/
theorem InitEncoder_failure_native_context (K : ApiConsts) (env : Env) (s s' : Sys)
    (p : EncodeParams) (h0 : s.obj.m_encoder = 0)
    (hf : InitEncoder K env s p = some (VIDEO_ENCODER_INIT_FAIL, s')) :
    ((VerifyEncodeParams K p = false ∨
        (LoadOpenH264SharedLib env
          { s with obj := { s.obj with m_encParams := p } }).1 = false) →
      s'.obj.m_encoder = 0) ∧
    ((VerifyEncodeParams K p = true ∧
        (LoadOpenH264SharedLib env
          { s with obj := { s.obj with m_encParams := p } }).1 = true) →
      s'.obj.m_encoder =
          (env.WelsCreateSVCEncoder (LoadOpenH264SharedLib env
            { s with obj := { s.obj with m_encParams := p } }).2.trace.length).2 ∧
      ((env.WelsCreateSVCEncoder (LoadOpenH264SharedLib env
            { s with obj := { s.obj with m_encParams := p } }).2.trace.length).1 = 0 →
        s'.obj.m_encoder ≠ 0)) := by
  unfold InitEncoder at hf
  split at hf
  · rename_i hv
    have hv' : VerifyEncodeParams K p = false := by simpa using hv
    simp only [Option.some.injEq, Prod.mk.injEq, true_and] at hf
    subst hf
    refine ⟨fun _ => h0, fun hc => ?_⟩
    rw [hv'] at hc
    exact absurd hc.1 (by simp)
  · rename_i hv
    have hv' : VerifyEncodeParams K p = true := by simpa using hv
    simp only at hf
    split at hf
    · rename_i hl
      have hl' : (LoadOpenH264SharedLib env
          { s with obj := { s.obj with m_encParams := p } }).1 = false := by simpa using hl
      simp only [Option.some.injEq, Prod.mk.injEq, true_and] at hf
      subst hf
      refine ⟨fun _ => ?_, fun hc => ?_⟩
      · rw [LoadOpenH264SharedLib_obj]; exact h0
      · rw [hl'] at hc
        exact absurd hc.2 (by simp)
    · rename_i hl
      have hl' : (LoadOpenH264SharedLib env
          { s with obj := { s.obj with m_encParams := p } }).1 = true := by simpa using hl
      have hpre : ¬ (VerifyEncodeParams K p = false ∨
          (LoadOpenH264SharedLib env
            { s with obj := { s.obj with m_encParams := p } }).1 = false) := by
        rw [hv', hl']; simp
      split at hf
      · exact absurd hf (by simp)
      · split at hf
        · rename_i hrc
          simp only [Option.some.injEq, Prod.mk.injEq, true_and] at hf
          subst hf
          refine ⟨fun hc => absurd hc hpre, fun _ => ⟨rfl, fun hz => ?_⟩⟩
          rw [hz] at hrc
          exact absurd hrc (by simp)
        · split at hf
          · exact absurd hf (by simp)
          · rename_i s5 hip
            simp only [Option.some.injEq, Prod.mk.injEq, true_and] at hf
            subst hf
            obtain ⟨_, _, h3, _, _, h6⟩ := InitParams_frame K env _ _ _ hip
            simp only [Sys.call] at h3 h6
            exact ⟨fun hc => absurd hc hpre, fun _ => ⟨h3, fun _ => by rw [h3]; exact h6⟩⟩
          · exact absurd hf (by simp)

/-- C9, amended, at a fresh adapter: with the library missing the context
stays null; with `GetDefaultParams` failing the created context stays. -/
theorem InitEncoder_failure_native_context_witness :
    (sampleAfterInit envNoLib).obj.m_encoder = 0 ∧
    (sampleAfterInit envNoDefaults).obj.m_encoder ≠ 0 :=
  ⟨(InitEncoder_failure_native_context sampleApi envNoLib Sys.initial
      (sampleAfterInit envNoLib) sampleParams (by rfl) (by rfl)).1 (Or.inr (by rfl)),
    ((InitEncoder_failure_native_context sampleApi envNoDefaults Sys.initial
      (sampleAfterInit envNoDefaults) sampleParams (by rfl) (by rfl)).2
        ⟨by rfl, by rfl⟩).2 (by rfl)⟩

/-- C10 as stated fails: with the pending-reset flag set, a large enough input
and a reset that fails (the encoder cannot be created again),
`EncodeOneFrame` returns `VIDEO_ENCODER_ENCODE_FAIL` and the flag is still
set on return. -/
theorem EncodeOneFrame_failed_reset_flag_still_set :
    sampleArmed.obj.m_resetFlag = true ∧ sampleArmed.obj.m_frameSize ≤ 1382400 ∧
    (ResetEncoder sampleApi envCreateOnce sampleArmed).map (fun r => r.1) =
      some VIDEO_ENCODER_RESET_FAIL ∧
    (EncodeOneFrame sampleApi envCreateOnce sampleArmed 0 1382400
        { outputData := 0, outputSize := 0 }).map
      (fun r => (r.1, r.2.1.obj.m_resetFlag)) = some (VIDEO_ENCODER_ENCODE_FAIL, true) := by
  decide

/-- C10, amended: when `EncodeOneFrame` is called with a large enough input
while the pending-reset flag is set and the internal reset does not return
`VIDEO_ENCODER_SUCCESS`, the call returns `VIDEO_ENCODER_ENCODE_FAIL`, in the
state the reset left and without writing the outputs, and the pending-reset
flag is still set when the call returns. -/
theorem EncodeOneFrame_failed_reset_keeps_flag (K : ApiConsts) (env : Env) (s s1 : Sys)
    (ret : EncoderRetCode) (inputData inputSize : Nat) (out : OutParams)
    (hsize : s.obj.m_frameSize ≤ inputSize) (hflag : s.obj.m_resetFlag = true)
    (hreset : ResetEncoder K env s = some (ret, s1))
    (hfail : ret ≠ VIDEO_ENCODER_SUCCESS) :
    EncodeOneFrame K env s inputData inputSize out =
      some (VIDEO_ENCODER_ENCODE_FAIL, s1, out) ∧
    s1.obj.m_resetFlag = true := by
  refine ⟨?_, ?_⟩
  · unfold EncodeOneFrame
    rw [if_neg (by omega), if_pos hflag, hreset]
    simp [hfail]
  · rw [ResetEncoder_resetFlag K env s s1 ret hreset, hflag]

/-- C10, amended, at the armed sample encoder when the encoder cannot be
created again. -/
theorem EncodeOneFrame_failed_reset_keeps_flag_witness :
    ∃ s1, EncodeOneFrame sampleApi envCreateOnce sampleArmed 0 1382400
        { outputData := 0, outputSize := 0 } =
      some (VIDEO_ENCODER_ENCODE_FAIL, s1, { outputData := 0, outputSize := 0 }) ∧
    s1.obj.m_resetFlag = true :=
  ⟨(match ResetEncoder sampleApi envCreateOnce sampleArmed with
      | some r => r.2
      | none => Sys.initial),
    EncodeOneFrame_failed_reset_keeps_flag sampleApi envCreateOnce sampleArmed _
      VIDEO_ENCODER_RESET_FAIL 0 1382400 { outputData := 0, outputSize := 0 }
      (by decide) (by decide) (by rfl) (by decide)⟩

/-- C11: lazy reconfiguration succeeds transparently. With coherent file-scope
variables and every binding and native call succeeding, `InitEncoder p` with
valid `p` succeeds, `StartEncoder` succeeds, `SetEncodeParams` with a valid
`p2` different from `p` succeeds and arms the flag, and the next
`EncodeOneFrame` with an input at least as large as the frame sizes of `p` and
`p2` releases the old native context, creates a new one and initialises it
with parameters configured from `p2` (target and maximum bitrate `p2.bitrate`,
picture `p2.width` x `p2.height`), sets the expected frame size to that of
`p2`, clears the flag and returns `VIDEO_ENCODER_SUCCESS` with the output
pointer and size of the native result. -/
theorem lazy_reconfiguration_succeeds (K : ApiConsts) (env : Env) (s : Sys)
    (p p2 : EncodeParams) (inputData inputSize : Nat) (out : OutParams)
    (henv : env.allSucceed) (hg : s.g.bound)
    (hp : VerifyEncodeParams K p = true) (hp2 : VerifyEncodeParams K p2 = true)
    (hne : p2 ≠ p)
    (hsize : p.width * p.height * 3 / 2 ≤ inputSize)
    (_hsize2 : p2.width * p2.height * 3 / 2 ≤ inputSize) :
    ∃ s1 s3 : Sys,
      InitEncoder K env s p = some (VIDEO_ENCODER_SUCCESS, s1) ∧
      StartEncoder s1 = (VIDEO_ENCODER_SUCCESS, s1) ∧
      (SetEncodeParams K s1 p2).1 = VIDEO_ENCODER_SUCCESS ∧
      (SetEncodeParams K s1 p2).2.obj.m_resetFlag = true ∧
      EncodeOneFrame K env (SetEncodeParams K s1 p2).2 inputData inputSize out =
        some (VIDEO_ENCODER_SUCCESS, s3,
          { outputData := (env.EncodeFrame (s1.trace.length + 6)).2.pBsBuf
            outputSize :=
              toUInt32 (env.EncodeFrame (s1.trace.length + 6)).2.iFrameSizeInBytes }) ∧
      s3.obj.m_resetFlag = false ∧
      s3.obj.m_encParams = p2 ∧
      s1.obj.m_encoder ≠ 0 ∧
      s3.obj.m_encoder = (env.WelsCreateSVCEncoder (s1.trace.length + 2)).2 ∧
      s3.obj.m_encoder ≠ 0 ∧
      s3.obj.m_frameSize = p2.width * p2.height * 3 / 2 ∧
      s3.obj.m_paramExt.iTargetBitrate = (p2.bitrate : Int) ∧
      s3.obj.m_paramExt.iMaxBitrate = (p2.bitrate : Int) ∧
      s3.obj.m_paramExt.iPicWidth = (p2.width : Int) ∧
      s3.obj.m_paramExt.iPicHeight = (p2.height : Int) ∧
      s3.trace = s1.trace ++
        [NativeCall.Uninitialize s1.obj.m_encoder,
         NativeCall.WelsDestroySVCEncoder s1.g.g_welsDestroySVCEncoder s1.obj.m_encoder,
         NativeCall.WelsCreateSVCEncoder s1.g.g_welsCreateSVCEncoder,
         NativeCall.GetDefaultParams s3.obj.m_encoder,
         NativeCall.InitializeExt s3.obj.m_encoder s3.obj.m_paramExt,
         NativeCall.SetOption s3.obj.m_encoder ENCODER_OPTION_DATAFORMAT videoFormatI420,
         NativeCall.EncodeFrame s3.obj.m_encoder s3.obj.m_srcPic] := by
  obtain ⟨s1, hinit⟩ := InitEncoder_succeeds K env s p hp henv hg
  obtain ⟨_, hpar, _, henc, hfs⟩ := InitEncoder_success K env s s1 p hinit
  obtain ⟨_, _, hl, hc, hb⟩ := InitEncoder_success_more K env s s1 p hinit
  have hd : s1.g.g_welsDestroySVCEncoder ≠ 0 := (hb hg hl).2.2
  have hneq : ¬ (p2.eq s1.obj.m_encParams = true) := by
    rw [hpar]
    exact fun h => hne ((EncodeParams.eq_iff _ _).mp h)
  have hset : SetEncodeParams K s1 p2 =
      (VIDEO_ENCODER_SUCCESS,
        { s1 with obj := { s1.obj with m_encParams := p2, m_resetFlag := true } }) := by
    unfold SetEncodeParams
    rw [if_neg hneq, hp2]
    rfl
  obtain ⟨_, hw2, _, hh2, _, _, hb2, _⟩ := (VerifyEncodeParams_iff K p2).mp hp2
  obtain ⟨s3, hE, hflag, hpar3, henc3, hfs3, hpe3, _, _, _, htr3⟩ :=
    EncodeOneFrame_lazy_reset_ok K env
      { s1 with obj := { s1.obj with m_encParams := p2, m_resetFlag := true } }
      inputData inputSize out henv rfl (by show s1.obj.m_frameSize ≤ inputSize; omega)
      hp2 henc hl hc hd
  have e1 := (henv (s1.trace.length + 2)).2.2.2.1
  have hcf := configureParamExt_fields K p2 (env.GetDefaultParams (s1.trace.length + 3)).2
  refine ⟨s1, s3, hinit, rfl, ?_, ?_, ?_, hflag, hpar3, henc, henc3, ?_, ?_, ?_, ?_, ?_, ?_, ?_⟩
  · rw [hset]
  · rw [hset]
  · rw [hset]; exact hE
  · rw [henc3]; exact e1
  · rw [hfs3]; exact frameSize_no_wrap _ _ hw2 hh2
  · rw [hpe3]; exact hcf.2.2.1.trans (toInt32_small _ (by omega))
  · rw [hpe3]; exact hcf.2.2.2.trans (toInt32_small _ (by omega))
  · rw [hpe3]; exact hcf.1.trans (toInt32_small _ (by omega))
  · rw [hpe3]; exact hcf.2.1.trans (toInt32_small _ (by omega))
  · rw [htr3, henc3, hpe3]

/-- C11, at the end-to-end example: 1280x720 at 4 Mbit/s, then 6 Mbit/s, then
one frame of 1382400 bytes. -/
theorem lazy_reconfiguration_succeeds_witness :
    ∃ s1 s3 : Sys,
      InitEncoder sampleApi envOk Sys.initial sampleParams =
        some (VIDEO_ENCODER_SUCCESS, s1) ∧
      EncodeOneFrame sampleApi envOk
          (SetEncodeParams sampleApi s1 { sampleParams with bitrate := 6000000 }).2
          0 1382400 { outputData := 0, outputSize := 0 } =
        some (VIDEO_ENCODER_SUCCESS, s3, { outputData := 131072, outputSize := 1500 }) ∧
      s3.obj.m_paramExt.iTargetBitrate = 6000000 :=
  match lazy_reconfiguration_succeeds sampleApi envOk Sys.initial sampleParams
      { sampleParams with bitrate := 6000000 } 0 1382400 { outputData := 0, outputSize := 0 }
      envOk_allSucceed (fun hl => absurd hl (by decide)) (by decide) (by decide) (by decide)
      (by decide) (by decide) with
  | ⟨s1, s3, h1, _, _, _, h5, _, _, _, _, _, _, h12, _⟩ => ⟨s1, s3, h1, h5, h12⟩

/-- C12: `DestroyEncoder` is idempotent. After one `DestroyEncoder` the native
context is null; a second consecutive `DestroyEncoder`, and the destructor's
`Release`, then leave the whole state unchanged, so they add no `Uninitialize`
or destroy call to the trace. The first call itself returns whenever there is
nothing to release or the destroy entry point is bound, and then issues the
two release calls once if there was a context and none otherwise. -/
theorem DestroyEncoder_idempotent (s : Sys) :
    (∀ s1 : Sys, DestroyEncoder s = some s1 →
      s1.obj.m_encoder = 0 ∧
      DestroyEncoder s1 = some s1 ∧
      destructor s1 = some s1 ∧
      (DestroyEncoder s).bind DestroyEncoder = DestroyEncoder s) ∧
    ((s.obj.m_encoder = 0 ∨ s.g.g_welsDestroySVCEncoder ≠ 0) →
      ∃ s1 : Sys, DestroyEncoder s = some s1 ∧
        s1.trace = s.trace ++
          (if s.obj.m_encoder = 0 then []
           else [NativeCall.Uninitialize s.obj.m_encoder,
                 NativeCall.WelsDestroySVCEncoder s.g.g_welsDestroySVCEncoder
                   s.obj.m_encoder])) := by
  constructor
  · intro s1 h
    have h0 : s1.obj.m_encoder = 0 := (Release_frame s s1 h).2.2.2.2
    have h2 : DestroyEncoder s1 = some s1 := Release_null s1 h0
    refine ⟨h0, h2, Release_null s1 h0, ?_⟩
    rw [h]
    exact h2
  · intro hc
    by_cases h0 : s.obj.m_encoder = 0
    · exact ⟨s, Release_null s h0, by simp [h0]⟩
    · rcases hc with hc | hc
      · exact absurd hc h0
      · exact ⟨_, Release_ok s h0 hc, by simp [h0]⟩

/-- C13: `ResetEncoder` is `DestroyEncoder`, then `InitEncoder` on the stored
parameters, then `StartEncoder`. In every state where the release is defined
it returns `VIDEO_ENCODER_SUCCESS` exactly when `InitEncoder` on the stored
parameters (run after the release) does, and `VIDEO_ENCODER_RESET_FAIL`
otherwise, never another code. With stored parameters that fail validation it
returns `VIDEO_ENCODER_RESET_FAIL` with the state, and so the trace of native
calls, unchanged: this holds whenever there is no native context, hence in
every reachable state, a freshly constructed adapter included. -/
theorem ResetEncoder_is_destroy_init_start (K : ApiConsts) (env : Env) (s : Sys) :
    (∀ s1 : Sys, DestroyEncoder s = some s1 →
      s1.obj.m_encoder = 0 ∧ s1.obj.m_encParams = s.obj.m_encParams ∧
      ResetEncoder K env s =
        (InitEncoder K env s1 s.obj.m_encParams).bind (fun r =>
          if r.1 = VIDEO_ENCODER_SUCCESS then
            some (VIDEO_ENCODER_SUCCESS, (StartEncoder r.2).2)
          else some (VIDEO_ENCODER_RESET_FAIL, r.2))) ∧
    (∀ (r : EncoderRetCode) (s2 : Sys), ResetEncoder K env s = some (r, s2) →
      r = VIDEO_ENCODER_SUCCESS ∨ r = VIDEO_ENCODER_RESET_FAIL) ∧
    (VerifyEncodeParams K s.obj.m_encParams = false → s.obj.m_encoder = 0 →
      ResetEncoder K env s = some (VIDEO_ENCODER_RESET_FAIL, s)) ∧
    (∀ env0 : Env, Reachable K env0 s → VerifyEncodeParams K s.obj.m_encParams = false →
      ResetEncoder K env s = some (VIDEO_ENCODER_RESET_FAIL, s)) ∧
    ResetEncoder K env Sys.initial = some (VIDEO_ENCODER_RESET_FAIL, Sys.initial) := by
  have hsteps := ResetEncoder_steps K env s
  have hinvalid : VerifyEncodeParams K s.obj.m_encParams = false → s.obj.m_encoder = 0 →
      ResetEncoder K env s = some (VIDEO_ENCODER_RESET_FAIL, s) := by
    intro hv h0
    rw [hsteps]
    unfold DestroyEncoder
    rw [Release_null s h0]
    unfold InitEncoder
    simp [hv]
  refine ⟨?_, ?_, hinvalid, ?_, ?_⟩
  · intro s1 hD
    obtain ⟨hp, _, _, _, he⟩ := Release_frame s s1 hD
    refine ⟨he, hp, ?_⟩
    rw [hsteps, hD]
    simp only [Option.some_bind, hp, StartEncoder]
  · intro r s2 h
    rw [hsteps] at h
    cases hD : DestroyEncoder s with
    | none => simp [hD] at h
    | some s1 =>
      cases hI : InitEncoder K env s1 s1.obj.m_encParams with
      | none => simp [hD, hI] at h
      | some r2 =>
        simp only [hD, hI, Option.some_bind] at h
        split at h <;>
        · simp only [Option.some.injEq, Prod.mk.injEq] at h
          first
            | exact Or.inl h.1.symm
            | exact Or.inr h.1.symm
  · intro env0 hreach hv
    by_cases h0 : s.obj.m_encoder = 0
    · exact hinvalid hv h0
    · have := (Reachable_inv K env0 s hreach).1 h0
      rw [hv] at this
      exact absurd this (by simp)
  · rfl

/-- C14: create and destroy recognise the same type codes. When the allocation
succeeds, `CreateVideoEncoder` returns `VIDEO_ENCODER_SUCCESS` with a non-null
handle exactly for the five codes OPENH264, NETINTH264, NETINTH265, VPEH264
and VPEH265 (the handle then is the allocated object); and with a non-null
handle `DestroyVideoEncoder` returns `VIDEO_ENCODER_SUCCESS` and deletes the
handle exactly for those five codes, and returns `VIDEO_ENCODER_DESTROY_FAIL`
deleting nothing for every other code. -/
theorem factory_dispatch_same_type_codes (K : ApiConsts) (encType : Nat) :
    (∀ alloc encoder : Nat, alloc ≠ 0 →
      (((CreateVideoEncoder K alloc encType encoder).ret = VIDEO_ENCODER_SUCCESS ∧
          (CreateVideoEncoder K alloc encType encoder).encoder ≠ 0) ↔
        K.recognises encType) ∧
      (K.recognises encType → (CreateVideoEncoder K alloc encType encoder).encoder = alloc)) ∧
    (∀ handle : Nat, handle ≠ 0 →
      ((DestroyVideoEncoder K encType handle).1 = VIDEO_ENCODER_SUCCESS ↔
        K.recognises encType) ∧
      (K.recognises encType →
        ∃ c, (DestroyVideoEncoder K encType handle).2 = some (c, handle)) ∧
      (¬ K.recognises encType →
        DestroyVideoEncoder K encType handle = (VIDEO_ENCODER_DESTROY_FAIL, none))) := by
  constructor
  · intro alloc encoder ha
    have ha2 : (alloc == 0) = false := by simpa using ha
    simp only [CreateVideoEncoder, ApiConsts.recognises, ha2, Bool.false_eq_true, if_false,
      beq_iff_eq]
    split_ifs <;> simp_all
  · intro handle hh
    have hh2 : (handle == 0) = false := by simpa using hh
    simp only [DestroyVideoEncoder, ApiConsts.recognises, hh2, Bool.false_eq_true, if_false,
      beq_iff_eq, Bool.or_eq_true]
    split_ifs <;> simp_all
    tauto

/-- C15 fails on the code. A fresh adapter is initialised for 16x16 (expected
frame size 384), `SetEncodeParams` accepts 4096x4096, and `EncodeOneFrame` is
called with 384 bytes: the size check passes against the frame size of the
old resolution, the pending reset reconfigures the encoder for 4096x4096, and
the native `EncodeFrame` is invoked with a 4096x4096 picture on an input of
384 bytes, far below `4096 * 4096 * 3 / 2`. -/
theorem EncodeOneFrame_undersized_after_larger_reset :
    (InitEncoder sampleApi envOk Sys.initial smallParams).map (fun r => r.1) =
      some VIDEO_ENCODER_SUCCESS ∧
    smallThenLarge.obj.m_encParams = largeParams ∧
    smallThenLarge.obj.m_resetFlag = true ∧
    smallThenLarge.obj.m_frameSize = 384 ∧
    (EncodeOneFrame sampleApi envOk smallThenLarge 1000 384
        { outputData := 0, outputSize := 0 }).map
      (fun r => (r.1, r.2.1.trace.getLast?, r.2.1.obj.m_frameSize)) =
      some (VIDEO_ENCODER_SUCCESS,
        some (NativeCall.EncodeFrame 65545
          { iColorFormat := 23, iStride0 := 4096, iStride1 := 2048, iStride2 := 2048,
            pData0 := 1000, pData1 := 16778216, pData2 := 20972520,
            iPicWidth := 4096, iPicHeight := 4096 }),
        25165824) ∧
    384 < 4096 * 4096 * 3 / 2 := by
  decide

/-- C16: `InitSrcPic` lays the input out as fixed-offset planar 4:2:0. In the
state a successful `InitEncoder p` produces, for every input address `b`,
`InitSrcPic` sets the picture to `p.width` x `p.height` in format I420, plane 0
at `b` with stride `p.width`, plane 1 at `b + p.width * p.height` with stride
`p.width / 2`, plane 2 at plane 1 plus `p.width * p.height / 4` with stride
`p.width / 2`, and writes no member other than `m_srcPic`. -/
theorem InitSrcPic_planar_layout (K : ApiConsts) (env : Env) (s s' : Sys)
    (p : EncodeParams) (b : Nat)
    (hinit : InitEncoder K env s p = some (VIDEO_ENCODER_SUCCESS, s')) :
    (InitSrcPic s'.obj b).m_srcPic.iPicWidth = (p.width : Int) ∧
    (InitSrcPic s'.obj b).m_srcPic.iPicHeight = (p.height : Int) ∧
    (InitSrcPic s'.obj b).m_srcPic.iColorFormat = videoFormatI420 ∧
    (InitSrcPic s'.obj b).m_srcPic.pData0 = b ∧
    (InitSrcPic s'.obj b).m_srcPic.iStride0 = (p.width : Int) ∧
    (InitSrcPic s'.obj b).m_srcPic.pData1 = b + p.width * p.height ∧
    (InitSrcPic s'.obj b).m_srcPic.iStride1 = ((p.width / 2 : Nat) : Int) ∧
    (InitSrcPic s'.obj b).m_srcPic.pData2 =
      (InitSrcPic s'.obj b).m_srcPic.pData1 + p.width * p.height / 4 ∧
    (InitSrcPic s'.obj b).m_srcPic.iStride2 = ((p.width / 2 : Nat) : Int) ∧
    InitSrcPic s'.obj b = { s'.obj with m_srcPic := (InitSrcPic s'.obj b).m_srcPic } := by
  obtain ⟨hv, _, _, _, _⟩ := InitEncoder_success K env s s' p hinit
  obtain ⟨⟨d, hpe⟩, hy, _, _, _⟩ := InitEncoder_success_more K env s s' p hinit
  obtain ⟨_, hw, _, hh, _⟩ := (VerifyEncodeParams_iff K p).mp hv
  have hwh : p.width * p.height ≤ 4096 * 4096 := Nat.mul_le_mul hw hh
  have hy' : s'.obj.m_yLength = p.width * p.height := by
    rw [hy]; exact Nat.mod_eq_of_lt (by unfold U32; omega)
  have hcf := configureParamExt_fields K p d
  have hW : s'.obj.m_paramExt.iPicWidth = (p.width : Int) := by
    rw [hpe]; exact hcf.1.trans (toInt32_small _ (by omega))
  have hH : s'.obj.m_paramExt.iPicHeight = (p.height : Int) := by
    rw [hpe]; exact hcf.2.1.trans (toInt32_small _ (by omega))
  have hstride : toInt32 (toUInt32 (p.width : Int) / COMPRESS_RATIO) =
      ((p.width / 2 : Nat) : Int) := by
    rw [toUInt32_natCast _ (by omega)]
    exact toInt32_small _ (by unfold COMPRESS_RATIO; omega)
  have hshift : (p.width * p.height) >>> COMPRESS_RATIO = p.width * p.height / 4 := by
    unfold COMPRESS_RATIO
    rw [Nat.shiftRight_eq_div_pow]
  simp only [InitSrcPic, hW, hH, hy', hstride, hshift]
  simp

/-- C16, at the end-to-end parameters with the input at address 1000. -/
theorem InitSrcPic_planar_layout_witness :
    (InitSrcPic sampleInitialised.obj 1000).m_srcPic.pData1 = 1000 + 1280 * 720 ∧
    (InitSrcPic sampleInitialised.obj 1000).m_srcPic.pData2 =
      (InitSrcPic sampleInitialised.obj 1000).m_srcPic.pData1 + 1280 * 720 / 4 ∧
    (InitSrcPic sampleInitialised.obj 1000).m_srcPic.iStride1 = 640 :=
  have h := InitSrcPic_planar_layout sampleApi envOk Sys.initial sampleInitialised
    sampleParams 1000 (by rfl)
  ⟨h.2.2.2.2.2.1, h.2.2.2.2.2.2.2.1, h.2.2.2.2.2.2.1⟩

/-- C17: binding invariant of `LoadOpenH264SharedLib`, for arbitrary results
of `dlopen` and `dlsym`. After any number of calls from program start, and
after a call from any coherent state, the loaded flag is set only if the
library handle and both entry points are non-null; every call returns the
value the flag has on return; and once the flag is set every later call
returns true and leaves the whole state unchanged, so it adds no `dlopen` or
`dlsym` to the trace and keeps the handle and the entry points. -/
theorem LoadOpenH264SharedLib_binding_invariant (env : Env) :
    (∀ n : Nat, (loadRepeat env n Sys.initial).g.bound) ∧
    (∀ s : Sys, s.g.bound → (LoadOpenH264SharedLib env s).2.g.bound) ∧
    (∀ s : Sys, (LoadOpenH264SharedLib env s).1 =
      (LoadOpenH264SharedLib env s).2.g.g_openH264Loaded) ∧
    (∀ s : Sys, s.g.g_openH264Loaded = true → LoadOpenH264SharedLib env s = (true, s)) ∧
    (∀ (n : Nat) (s : Sys), s.g.g_openH264Loaded = true → loadRepeat env n s = s) := by
  have hrep : ∀ (n : Nat) (s : Sys), s.g.bound → (loadRepeat env n s).g.bound := by
    intro n
    induction n with
    | zero => intro s hb; exact hb
    | succ n ih =>
      intro s hb
      exact ih _ (LoadOpenH264SharedLib_bound env s hb)
  refine ⟨fun n => hrep n Sys.initial (fun hl => absurd hl (by decide)),
    fun s hb => LoadOpenH264SharedLib_bound env s hb,
    fun s => LoadOpenH264SharedLib_ret env s,
    fun s hl => LoadOpenH264SharedLib_loaded env s hl, ?_⟩
  intro n
  induction n with
  | zero => intro s _; rfl
  | succ n ih =>
    intro s hl
    show loadRepeat env n (LoadOpenH264SharedLib env s).2 = s
    rw [LoadOpenH264SharedLib_loaded env s hl]
    exact ih s hl

/-- C18 as stated fails: on a newly constructed adapter `SetEncodeParams` with
the all-zero parameters returns `VIDEO_ENCODER_SUCCESS` through the equality
short-circuit, and the stored parameters (still all zero) fail validation. -/
theorem stored_params_not_validated_after_equal_set :
    (SetEncodeParams sampleApi Sys.initial EncodeParams.zero).1 = VIDEO_ENCODER_SUCCESS ∧
    Accepted sampleApi envOk false (SetEncodeParams sampleApi Sys.initial EncodeParams.zero).2 ∧
    VerifyEncodeParams sampleApi
      (SetEncodeParams sampleApi Sys.initial EncodeParams.zero).2.obj.m_encParams = false :=
  ⟨by decide,
    Accepted.set Sys.initial EncodeParams.zero (Reachable.initial Globals.initial []) (by decide)
      (fun h => absurd h (by decide)),
    by decide⟩

/-- C18, amended: in every state reachable from a newly constructed adapter by
public calls, once an `InitEncoder` call has returned `VIDEO_ENCODER_SUCCESS`,
or a `SetEncodeParams` call whose argument differed from the stored parameters
has returned `VIDEO_ENCODER_SUCCESS`, the stored parameters satisfy
`VerifyEncodeParams`. -/
theorem stored_params_validated (K : ApiConsts) (env : Env) (s : Sys)
    (h : Accepted K env true s) : VerifyEncodeParams K s.obj.m_encParams = true := by
  induction h with
  | init s s1 p _ hinit =>
    obtain ⟨hv, hp, _⟩ := InitEncoder_success K env s s1 p hinit
    rw [hp]; exact hv
  | set s p _ hret hchanged =>
    have hne : ¬ (p.eq s.obj.m_encParams = true) :=
      fun he => hchanged rfl ((EncodeParams.eq_iff _ _).mp he)
    unfold SetEncodeParams at hret ⊢
    rw [if_neg hne] at hret ⊢
    split
    · rename_i hv
      rw [if_pos hv] at hret
      exact absurd hret (by simp)
    · rename_i hv
      simpa using hv
  | next s s1 op r _ hstep ih =>
    rcases (step_params K env s s1 op r hstep).1 with hp | hp
    · rw [hp]; exact ih
    · exact hp

/-- C18, amended, at the adapter initialised with the end-to-end parameters. -/
theorem stored_params_validated_witness :
    VerifyEncodeParams sampleApi sampleInitialised.obj.m_encParams = true :=
  stored_params_validated sampleApi envOk sampleInitialised
    (Accepted.init Sys.initial sampleInitialised sampleParams (Reachable.initial Globals.initial []) (by rfl))

/-- C19: for every parameter value that passes `VerifyEncodeParams`, the 32-bit
computations of `InitEncoder` and `InitParams` do not wrap:
`width * height * 3 < 2^32`, the expected frame size is
`3 * width * height / 2` and the luma length is `width * height`; and the
plane layout fits: `width * height + 2 * (width * height / 4)` is at most the
frame size, so in the state a successful `InitEncoder` produces the second
chroma plane set up by `InitSrcPic` ends within the first frame-size bytes of
the input. -/
theorem frame_size_arithmetic_no_wrap (K : ApiConsts) (p : EncodeParams)
    (hv : VerifyEncodeParams K p = true) :
    p.width * p.height * 3 < U32 ∧
    (((p.width * p.height) % U32) * PRIMARY_COLOURS % U32) / COMPRESS_RATIO =
      3 * p.width * p.height / 2 ∧
    (p.width * p.height) % U32 = p.width * p.height ∧
    p.width * p.height + 2 * (p.width * p.height / 4) ≤ 3 * p.width * p.height / 2 ∧
    (∀ (env : Env) (s s' : Sys) (b : Nat),
      InitEncoder K env s p = some (VIDEO_ENCODER_SUCCESS, s') →
        s'.obj.m_frameSize = 3 * p.width * p.height / 2 ∧
        s'.obj.m_yLength = p.width * p.height ∧
        (InitSrcPic s'.obj b).m_srcPic.pData2 + p.width * p.height / 4 ≤
          b + s'.obj.m_frameSize) := by
  obtain ⟨_, hw, _, hh, _⟩ := (VerifyEncodeParams_iff K p).mp hv
  have hwh : p.width * p.height ≤ 4096 * 4096 := Nat.mul_le_mul hw hh
  have hfs := frameSize_no_wrap p.width p.height hw hh
  have hmod : (p.width * p.height) % U32 = p.width * p.height :=
    Nat.mod_eq_of_lt (by unfold U32; omega)
  have h3 : 3 * p.width * p.height = p.width * p.height * 3 := by ring
  refine ⟨by unfold U32; omega, by rw [hfs, h3], hmod, by rw [h3]; omega, ?_⟩
  intro env s s' b hinit
  obtain ⟨_, _, _, _, hf⟩ := InitEncoder_success K env s s' p hinit
  obtain ⟨_, hy, _⟩ := InitEncoder_success_more K env s s' p hinit
  have hy' : s'.obj.m_yLength = p.width * p.height := hy.trans hmod
  have hshift : (p.width * p.height) >>> COMPRESS_RATIO = p.width * p.height / 4 := by
    unfold COMPRESS_RATIO
    rw [Nat.shiftRight_eq_div_pow]
  refine ⟨by rw [hf, h3], hy', ?_⟩
  simp only [InitSrcPic, hy', hshift, hf]
  omega

/-- C19, at the end-to-end parameters: the frame size is 1382400 and the luma
length 921600. -/
theorem frame_size_arithmetic_no_wrap_witness :
    (((sampleParams.width * sampleParams.height) % U32) * PRIMARY_COLOURS % U32)
        / COMPRESS_RATIO = 3 * sampleParams.width * sampleParams.height / 2 ∧
    (sampleParams.width * sampleParams.height) % U32 =
      sampleParams.width * sampleParams.height :=
  have h := frame_size_arithmetic_no_wrap sampleApi sampleParams (by decide)
  ⟨h.2.1, h.2.2.1⟩

/-- C20: an explicit `ResetEncoder` never changes the pending-reset flag,
whatever it returns. Hence after `SetEncodeParams p2` with valid `p2` different
from the stored parameters and a successful explicit `ResetEncoder`, the flag
is still set, and the next `EncodeOneFrame` with a large enough input runs
`ResetEncoder` once more before the encode step; when every outside call
succeeds it releases the context the explicit reset created, creates and
initialises another one, and only then calls `EncodeFrame`. -/
theorem ResetEncoder_keeps_pending_flag (K : ApiConsts) (env : Env) (s : Sys) :
    (∀ (r : EncoderRetCode) (s1 : Sys), ResetEncoder K env s = some (r, s1) →
      s1.obj.m_resetFlag = s.obj.m_resetFlag) ∧
    (∀ (p2 : EncodeParams) (s3 : Sys) (inputData inputSize : Nat) (out : OutParams),
      p2 ≠ s.obj.m_encParams → VerifyEncodeParams K p2 = true →
      ResetEncoder K env (SetEncodeParams K s p2).2 = some (VIDEO_ENCODER_SUCCESS, s3) →
      s3.obj.m_frameSize ≤ inputSize →
      s3.obj.m_resetFlag = true ∧
      s3.obj.m_encParams = p2 ∧
      s3.obj.m_encoder ≠ 0 ∧
      EncodeOneFrame K env s3 inputData inputSize out =
        (ResetEncoder K env s3).bind (fun r =>
          if r.1 = VIDEO_ENCODER_SUCCESS then
            encodeFrameStep env { r.2 with obj := { r.2.obj with m_resetFlag := false } }
              inputData out
          else some (VIDEO_ENCODER_ENCODE_FAIL, r.2, out)) ∧
      (env.allSucceed → s.g.bound →
        ∃ (s4 : Sys) (out4 : OutParams),
          EncodeOneFrame K env s3 inputData inputSize out =
            some (VIDEO_ENCODER_SUCCESS, s4, out4) ∧
          s4.obj.m_resetFlag = false ∧
          s4.trace = s3.trace ++
            [NativeCall.Uninitialize s3.obj.m_encoder,
             NativeCall.WelsDestroySVCEncoder s3.g.g_welsDestroySVCEncoder s3.obj.m_encoder,
             NativeCall.WelsCreateSVCEncoder s3.g.g_welsCreateSVCEncoder,
             NativeCall.GetDefaultParams s4.obj.m_encoder,
             NativeCall.InitializeExt s4.obj.m_encoder s4.obj.m_paramExt,
             NativeCall.SetOption s4.obj.m_encoder ENCODER_OPTION_DATAFORMAT videoFormatI420,
             NativeCall.EncodeFrame s4.obj.m_encoder s4.obj.m_srcPic])) := by
  refine ⟨fun r s1 h => ResetEncoder_resetFlag K env s s1 r h, ?_⟩
  intro p2 s3 inputData inputSize out hne hv hreset hsize
  have hneq : ¬ (p2.eq s.obj.m_encParams = true) :=
    fun h => hne ((EncodeParams.eq_iff _ _).mp h)
  have hset : SetEncodeParams K s p2 =
      (VIDEO_ENCODER_SUCCESS,
        { s with obj := { s.obj with m_encParams := p2, m_resetFlag := true } }) := by
    unfold SetEncodeParams
    rw [if_neg hneq, hv]
    rfl
  rw [hset] at hreset
  have hflag : s3.obj.m_resetFlag = true :=
    ResetEncoder_resetFlag K env _ s3 _ hreset
  obtain ⟨hp, _, henc, hl, hc, hb⟩ := ResetEncoder_success K env _ s3 hreset
  have hp3 : s3.obj.m_encParams = p2 := hp
  have hE : EncodeOneFrame K env s3 inputData inputSize out =
      (ResetEncoder K env s3).bind (fun r =>
        if r.1 = VIDEO_ENCODER_SUCCESS then
          encodeFrameStep env { r.2 with obj := { r.2.obj with m_resetFlag := false } }
            inputData out
        else some (VIDEO_ENCODER_ENCODE_FAIL, r.2, out)) := by
    unfold EncodeOneFrame
    rw [if_neg (by omega), if_pos hflag]
    cases hR : ResetEncoder K env s3 with
    | none => rfl
    | some r =>
      obtain ⟨ret, s5⟩ := r
      by_cases hr : ret = VIDEO_ENCODER_SUCCESS
      · subst hr; simp
      · simp [hr]
  refine ⟨hflag, hp3, henc, hE, ?_⟩
  intro henv hg
  have hd : s3.g.g_welsDestroySVCEncoder ≠ 0 := (hb hg hl).2.2
  obtain ⟨s4, hE4, hf4, _, he4, _, hpe4, _, _, _, htr4⟩ :=
    EncodeOneFrame_lazy_reset_ok K env s3 inputData inputSize out henv hflag hsize
      (by rw [hp3]; exact hv) henc hl hc hd
  exact ⟨s4, _, hE4, hf4, by rw [htr4, he4, hpe4]⟩

/-- C20, at the sample encoder with the bitrate raised to 6 Mbit/s: the
explicit `ResetEncoder` succeeds (six more calls, thirteen in all) and the
flag is still set. -/
theorem ResetEncoder_keeps_pending_flag_witness :
    (ResetEncoder sampleApi envOk sampleArmed).map
        (fun r => (r.1, r.2.obj.m_resetFlag, r.2.trace.length)) =
      some (VIDEO_ENCODER_SUCCESS, true, 13) ∧
    ∀ s1 : Sys, ResetEncoder sampleApi envOk sampleArmed = some (VIDEO_ENCODER_SUCCESS, s1) →
      s1.obj.m_resetFlag = sampleArmed.obj.m_resetFlag :=
  ⟨by decide,
    fun s1 h => (ResetEncoder_keeps_pending_flag sampleApi envOk sampleArmed).1 _ s1 h⟩

end VideoCodec
